import Mathlib

/-!
# Verification of the Yahoo-finance normalization engine (`run_yahoo.py`)

Shallow embedding of the single-file Python program that ingests financial
statement tables, aligns fiscal periods, computes derived metrics with
null-propagation, distress flags, and QoQ/YoY growth, and aggregates rows
per company.

Embedding conventions:
* Python `Decimal` values (and the floats they are converted to by `_fmt`)
  are modelled as exact rationals `ℚ`.  The `Decimal` arithmetic context
  (28 significant digits, no infinities/NaN payloads) is idealized as exact
  rational arithmetic; `pd.isna` values are modelled as `none` before they
  reach the arithmetic layer, exactly as the code drops them in `val`.
* `None` is `Option.none`; a "metrics" dict entry that is never assigned is
  a field that stays `none` (the code never stores `None` in a growth key,
  so absence and null do not collide there).
* Python `round(x, nd)` (both on `Decimal` and on `float`) rounds half to
  even at `nd` fractional digits; it is modelled by `roundTo`.
* Rational arithmetic is implemented by executable `mkRat`-based operations
  (`qAdd`, `qSub`, `qMul`, `qDiv`) so that concrete runs reduce inside the
  kernel; bridge lemmas prove them equal to the `ℚ` field operations.
* Python exceptions: the embedded functions are total; branches that the
  source reaches only through `try/except` are modelled by `Option`.
-/

namespace SCM

/-! ## Executable rational arithmetic -/

/-- Executable addition on `ℚ` (definitionally reducible, unlike `Rat.add`). -/
def qAdd (a b : ℚ) : ℚ := mkRat (a.num * b.den + b.num * a.den) (a.den * b.den)

/-- Executable subtraction on `ℚ`. -/
def qSub (a b : ℚ) : ℚ := mkRat (a.num * b.den - b.num * a.den) (a.den * b.den)

/-- Executable multiplication on `ℚ`. -/
def qMul (a b : ℚ) : ℚ := mkRat (a.num * b.num) (a.den * b.den)

/-- Executable inverse on `ℚ` (`qInv 0 = 0`, as for `Inv ℚ`). -/
def qInv (b : ℚ) : ℚ := Rat.divInt (b.den : ℤ) b.num

/-- Executable division on `ℚ`. -/
def qDiv (a b : ℚ) : ℚ := qMul a (qInv b)

theorem qAdd_eq (a b : ℚ) : qAdd a b = a + b := by
  have ha : (a.den : ℚ) ≠ 0 := by exact_mod_cast a.den_nz
  have hb : (b.den : ℚ) ≠ 0 := by exact_mod_cast b.den_nz
  unfold qAdd
  rw [Rat.mkRat_eq_div]
  conv_rhs => rw [← Rat.num_div_den a, ← Rat.num_div_den b]
  rw [div_add_div _ _ ha hb]
  push_cast
  ring_nf

theorem qSub_eq (a b : ℚ) : qSub a b = a - b := by
  have ha : (a.den : ℚ) ≠ 0 := by exact_mod_cast a.den_nz
  have hb : (b.den : ℚ) ≠ 0 := by exact_mod_cast b.den_nz
  unfold qSub
  rw [Rat.mkRat_eq_div]
  conv_rhs => rw [← Rat.num_div_den a, ← Rat.num_div_den b]
  rw [div_sub_div _ _ ha hb]
  push_cast
  ring_nf

theorem qMul_eq (a b : ℚ) : qMul a b = a * b := by
  unfold qMul
  rw [Rat.mkRat_eq_div]
  conv_rhs => rw [← Rat.num_div_den a, ← Rat.num_div_den b]
  rw [div_mul_div_comm]
  push_cast
  ring_nf

theorem qInv_eq (b : ℚ) : qInv b = b⁻¹ := by
  unfold qInv
  have h : b⁻¹ = b.inv := rfl
  rw [h, Rat.inv_def]

theorem qDiv_eq (a b : ℚ) : qDiv a b = a / b := by
  rw [qDiv, qMul_eq, qInv_eq, div_eq_mul_inv]

/-- `10 ^ n` as an executable rational. -/
def pow10 : Nat → ℚ
  | 0 => 1
  | n + 1 => qMul (mkRat 10 1) (pow10 n)

theorem pow10_eq (n : Nat) : pow10 n = (10 : ℚ) ^ n := by
  induction n with
  | zero => rfl
  | succ k ih =>
    rw [pow10, qMul_eq, ih, pow_succ]
    norm_num
    ring

theorem pow10_pos (n : Nat) : 0 < pow10 n := by
  rw [pow10_eq]
  positivity

/-- Floor of a rational, executable (`Int.fdiv` rounds toward `-∞`). -/
def qFloor (q : ℚ) : ℤ := Int.fdiv q.num (q.den : ℤ)

/-- Round half to even to the nearest integer: the rounding used by Python's
`round` builtin (on `float` and, via `ROUND_HALF_EVEN`, on `Decimal`). -/
def rhe (q : ℚ) : ℤ :=
  let n : ℤ := qFloor q
  let f : ℚ := qSub q (mkRat n 1)
  if f < mkRat 1 2 then n
  else if mkRat 1 2 < f then n + 1
  else if n % 2 = 0 then n else n + 1

/-- Python `round(q, nd)`: half-even rounding at `nd` fractional digits. -/
def roundTo (nd : Nat) (q : ℚ) : ℚ := qDiv (mkRat (rhe (qMul q (pow10 nd))) 1) (pow10 nd)

/-! ## Decimal digit strings

Python renders dates with `str(d.date())` (ISO `YYYY-MM-DD`, components
zero-padded) and builds the YoY lookup key with `str(int(ds[:4]) - 1)`.
The digit functions below model `"%d" % n`, `"%0wd" % n` and `int(s)` for
ASCII digit strings.  They use explicit fuel so that the kernel can reduce
them on concrete inputs. -/

/-- The ASCII digit character for `n < 10` (as produced by Python's `str`). -/
def digCh (n : Nat) : Char := Char.ofNat (48 + n)

/-- Fuel-driven decimal rendering; `natDigitsGo f n` is correct for `n < f`. -/
def natDigitsGo : Nat → Nat → List Char
  | 0, _ => []
  | f + 1, n => if n < 10 then [digCh n] else natDigitsGo f (n / 10) ++ [digCh (n % 10)]

/-- The decimal digits of `n`, most significant first: Python `str(n)` for `n : Nat`. -/
def natDigits (n : Nat) : List Char := natDigitsGo (n + 1) n

/-- Python `str` of an integer (used for the YoY key `str(int(ds[:4]) - 1)`). -/
def pyIntStr (z : ℤ) : String :=
  if z < 0 then String.mk ('-' :: natDigits z.natAbs) else String.mk (natDigits z.toNat)

/-- Zero-pad the decimal form of `n` to width `w`: Python `"%0wd" % n`. -/
def padDigits (w : Nat) (n : Nat) : List Char :=
  List.replicate (w - (natDigits n).length) '0' ++ natDigits n

/-- Is `c` an ASCII decimal digit? -/
def isDigitCh (c : Char) : Bool := 48 ≤ c.toNat && c.toNat ≤ 57

/-- Numeric value of a digit string (the `int(s)` accumulator loop). -/
def digitsVal (cs : List Char) : Nat := cs.foldl (fun n c => n * 10 + (c.toNat - 48)) 0

/-- Python `int(s)` restricted to plain ASCII digit strings: every string the
embedded program ever parses is one (date strings are zero-padded digits), so
sign, whitespace and underscore forms accepted by `int` are elided; any other
string makes `int` raise, modelled by `none`. -/
def pyIntOfDigits (cs : List Char) : Option Nat :=
  if cs.isEmpty then none
  else if cs.all isDigitCh then some (digitsVal cs) else none

theorem digCh_toNat {n : Nat} (h : n < 10) : (digCh n).toNat = 48 + n := by
  interval_cases n <;> decide

theorem digCh_isDigit {n : Nat} (h : n < 10) : isDigitCh (digCh n) = true := by
  interval_cases n <;> decide

theorem natDigitsGo_spec :
    ∀ f n, n < f →
      natDigitsGo f n ≠ [] ∧ (natDigitsGo f n).all isDigitCh = true ∧
        digitsVal (natDigitsGo f n) = n := by
  intro f
  induction f with
  | zero => intro n h; omega
  | succ k ih =>
    intro n h
    by_cases h10 : n < 10
    · rw [natDigitsGo, if_pos h10]
      refine ⟨by simp, by simp [List.all_cons, digCh_isDigit h10], ?_⟩
      simp [digitsVal, digCh_toNat h10]
    · have hn : 0 < n := by omega
      have hrec : n / 10 < k := by
        have h1 : n / 10 < n := Nat.div_lt_self hn (by omega)
        omega
      obtain ⟨hne, hall, hval⟩ := ih (n / 10) hrec
      rw [natDigitsGo, if_neg h10]
      refine ⟨by simp, ?_, ?_⟩
      · have hm : n % 10 < 10 := Nat.mod_lt _ (by omega)
        simp [List.all_append, hall, List.all_cons, digCh_isDigit hm]
      · have hm : n % 10 < 10 := Nat.mod_lt _ (by omega)
        rw [digitsVal, List.foldl_append, List.foldl_cons, List.foldl_nil]
        have hfold : List.foldl (fun n c => n * 10 + (c.toNat - 48)) 0 (natDigitsGo k (n / 10)) = n / 10 := hval
        rw [hfold, digCh_toNat hm]
        omega

theorem natDigits_ne_nil (n : Nat) : natDigits n ≠ [] :=
  (natDigitsGo_spec (n + 1) n (by omega)).1

theorem natDigits_all_digits (n : Nat) : (natDigits n).all isDigitCh = true :=
  (natDigitsGo_spec (n + 1) n (by omega)).2.1

theorem digitsVal_natDigits (n : Nat) : digitsVal (natDigits n) = n :=
  (natDigitsGo_spec (n + 1) n (by omega)).2.2

theorem natDigitsGo_length :
    ∀ f n k, n < f → n < 10 ^ (k + 1) → (natDigitsGo f n).length ≤ k + 1 := by
  intro f
  induction f with
  | zero => intro n k h; omega
  | succ fk ih =>
    intro n k h hpow
    by_cases h10 : n < 10
    · rw [natDigitsGo, if_pos h10]; simp
    · have hn : 0 < n := by omega
      have hrec : n / 10 < fk := by
        have h1 : n / 10 < n := Nat.div_lt_self hn (by omega)
        omega
      have hk : 1 ≤ k := by
        by_contra hc
        have hk0 : k = 0 := by omega
        rw [hk0] at hpow
        omega
      have hpow' : n / 10 < 10 ^ (k - 1 + 1) := by
        have : k - 1 + 1 = k := by omega
        rw [this]
        have h2 : n < 10 ^ (k + 1) := hpow
        have h3 : 10 ^ (k + 1) = 10 ^ k * 10 := by rw [pow_succ]
        rw [h3] at h2
        exact Nat.div_lt_of_lt_mul (by omega)
      have := ih (n / 10) (k - 1) hrec hpow'
      rw [natDigitsGo, if_neg h10]
      rw [List.length_append]
      simp only [List.length_cons, List.length_nil]
      omega

theorem natDigitsGo_length_ge :
    ∀ f n k, n < f → 10 ^ k ≤ n → k + 1 ≤ (natDigitsGo f n).length := by
  intro f
  induction f with
  | zero => intro n k h; omega
  | succ fk ih =>
    intro n k h hpow
    by_cases h10 : n < 10
    · have hk : k = 0 := by
        by_contra hc
        have h1 : 1 ≤ k := by omega
        have h2 : 10 ≤ 10 ^ k := by
          calc 10 = 10 ^ 1 := by norm_num
          _ ≤ 10 ^ k := Nat.pow_le_pow_right (by omega) h1
        omega
      rw [natDigitsGo, if_pos h10, hk]; simp
    · have hn : 0 < n := by omega
      have hrec : n / 10 < fk := by
        have h1 : n / 10 < n := Nat.div_lt_self hn (by omega)
        omega
      by_cases hk : k = 0
      · rw [natDigitsGo, if_neg h10, hk, List.length_append]
        simp only [List.length_cons, List.length_nil]
        omega
      · have hpow' : 10 ^ (k - 1) ≤ n / 10 := by
          have h3 : 10 ^ (k - 1) * 10 ≤ n := by
            have : 10 ^ (k - 1) * 10 = 10 ^ k := by
              rw [← pow_succ]
              congr 1
              omega
            omega
          exact Nat.le_div_iff_mul_le (by omega) |>.mpr h3
        have := ih (n / 10) (k - 1) hrec hpow'
        rw [natDigitsGo, if_neg h10, List.length_append]
        simp only [List.length_cons, List.length_nil]
        omega

theorem natDigits_length_of_lt {n k : Nat} (h : n < 10 ^ (k + 1)) :
    (natDigits n).length ≤ k + 1 :=
  natDigitsGo_length (n + 1) n k (by omega) h

theorem natDigits_length_of_ge {n k : Nat} (h : 10 ^ k ≤ n) :
    k + 1 ≤ (natDigits n).length :=
  natDigitsGo_length_ge (n + 1) n k (by omega) h

/-- For `10^(w-1) ≤ n < 10^w` the decimal form has exactly `w` digits and
zero-padding to width `w` is the identity. -/
theorem natDigits_length_exact {n w : Nat} (hw : 1 ≤ w)
    (hlo : 10 ^ (w - 1) ≤ n) (hhi : n < 10 ^ w) : (natDigits n).length = w := by
  have h1 : (natDigits n).length ≤ w := by
    have hw' : w - 1 + 1 = w := by omega
    have := @natDigits_length_of_lt n (w - 1) (by rw [hw']; exact hhi)
    omega
  have h2 : w ≤ (natDigits n).length := by
    have := @natDigits_length_of_ge n (w - 1) hlo
    omega
  omega

theorem digitsVal_replicate_zero_append (j : Nat) (cs : List Char) :
    digitsVal (List.replicate j '0' ++ cs) = digitsVal cs := by
  induction j with
  | zero => simp
  | succ k ih =>
    rw [List.replicate_succ, List.cons_append, digitsVal, List.foldl_cons]
    have h0 : (0 : Nat) * 10 + ('0'.toNat - 48) = 0 := by decide
    rw [h0]
    exact ih

theorem padDigits_val (w n : Nat) : digitsVal (padDigits w n) = n := by
  rw [padDigits, digitsVal_replicate_zero_append, digitsVal_natDigits]

theorem padDigits_all_digits (w n : Nat) : (padDigits w n).all isDigitCh = true := by
  rw [padDigits, List.all_append]
  have h1 : (List.replicate (w - (natDigits n).length) '0').all isDigitCh = true := by
    rw [List.all_eq_true]
    intro c hc
    rw [List.eq_of_mem_replicate hc]
    decide
  rw [h1, natDigits_all_digits]
  rfl

theorem padDigits_length {w n : Nat} (h : (natDigits n).length ≤ w) :
    (padDigits w n).length = w := by
  rw [padDigits, List.length_append, List.length_replicate]
  omega

theorem padDigits_ne_nil (w n : Nat) : padDigits w n ≠ [] := by
  rw [padDigits]
  intro h
  have := natDigits_ne_nil n
  rcases List.append_eq_nil.mp h with ⟨-, h2⟩
  exact this h2

theorem pyIntOfDigits_padDigits (w n : Nat) : pyIntOfDigits (padDigits w n) = some n := by
  rw [pyIntOfDigits]
  rw [if_neg (by simp [List.isEmpty_iff, padDigits_ne_nil w n])]
  rw [if_pos (padDigits_all_digits w n), padDigits_val]

/-- Padded digit strings of a common width are injective in the value. -/
theorem padDigits_inj {w a b : Nat} (h : padDigits w a = padDigits w b) : a = b := by
  have := padDigits_val w a
  rw [h, padDigits_val w b] at this
  omega

/-! ## Fiscal periods

A `pandas.Timestamp` column label, reduced to the calendar data the program
uses: the sort key (chronological order) and the ISO rendering
`str(d.date())`.  `Date.valid` is the `pandas.Timestamp` domain
(years 1677–2262 — `Timestamp.min`/`Timestamp.max`), which every column
label of a `yfinance` statement table inhabits. -/

structure Date where
  y : Nat
  m : Nat
  d : Nat
deriving DecidableEq

/-- Chronological sort key; on `Date.valid` dates it orders exactly as the
underlying timestamps do. -/
def Date.key (dt : Date) : Nat := dt.y * 10000 + dt.m * 100 + dt.d

/-- The character list of `str(d.date())`: zero-padded ISO `YYYY-MM-DD`. -/
def Date.isoChars (dt : Date) : List Char :=
  padDigits 4 dt.y ++ '-' :: (padDigits 2 dt.m ++ '-' :: padDigits 2 dt.d)

/-- `str(d.date())`, the ISO rendering used as `fiscalDate` and dict key. -/
def Date.iso (dt : Date) : String := String.mk dt.isoChars

/-- The `pandas.Timestamp` value range (plus calendar sanity) — the domain
from which every real statement-table column label is drawn. -/
def Date.valid (dt : Date) : Prop :=
  1677 ≤ dt.y ∧ dt.y ≤ 2262 ∧ 1 ≤ dt.m ∧ dt.m ≤ 12 ∧ 1 ≤ dt.d ∧ dt.d ≤ 31

instance : DecidablePred Date.valid := fun dt => by
  unfold Date.valid
  infer_instance

instance : IsTotal Date (fun a b => Date.key b ≤ Date.key a) :=
  ⟨fun _ _ => Nat.le_total _ _⟩

instance : IsTrans Date (fun a b => Date.key b ≤ Date.key a) :=
  ⟨fun _ _ _ h1 h2 => Nat.le_trans h2 h1⟩

/-- `sorted(•, reverse=True)` on period labels: descending chronological
order (the Python sort compares timestamps; on `Date.valid` dates the key
comparison agrees with it). -/
def sortDesc (l : List Date) : List Date :=
  l.insertionSort (fun a b => Date.key b ≤ Date.key a)

/-! ## Decimal coercion and formatting primitives -/

/-- A raw cell / input value as Python sees it: `None`, a string, or a
finite number (int / float / Decimal, idealized as an exact rational). -/
inductive Raw where
  | none
  | str (s : String)
  | num (q : ℚ)

/-- Exponent suffix of a decimal literal: `""` or `e/E` followed by an
optionally signed digit run. -/
def parseExpPart : List Char → Option ℤ
  | [] => some 0
  | c :: rest =>
    if c = 'e' ∨ c = 'E' then
      match rest with
      | '+' :: ds => (pyIntOfDigits ds).map (fun n => (n : ℤ))
      | '-' :: ds => (pyIntOfDigits ds).map (fun n => -(n : ℤ))
      | ds => (pyIntOfDigits ds).map (fun n => (n : ℤ))
    else Option.none

/-- The rational denoted by a digit run. -/
def qOfDigits (cs : List Char) : ℚ := mkRat (digitsVal cs : ℤ) 1

/-- Scale by `10 ^ e` for an integer exponent. -/
def applyExp (q : ℚ) : ℤ → ℚ
  | Int.ofNat n => qMul q (pow10 n)
  | Int.negSucc n => qDiv q (pow10 (n + 1))

/-- Body of a decimal literal after the optional sign:
`digits [. digits] [exp]` or `. digits [exp]`. -/
def parseUnsignedDec (cs : List Char) : Option ℚ :=
  let ip := cs.takeWhile isDigitCh
  let r1 := cs.dropWhile isDigitCh
  match r1 with
  | '.' :: r2 =>
    let fp := r2.takeWhile isDigitCh
    let r3 := r2.dropWhile isDigitCh
    if ip.isEmpty && fp.isEmpty then Option.none
    else (parseExpPart r3).map (applyExp (qAdd (qOfDigits ip) (qDiv (qOfDigits fp) (pow10 fp.length))))
  | _ =>
    if ip.isEmpty then Option.none
    else (parseExpPart r1).map (applyExp (qOfDigits ip))

/-- `Decimal(s)` for a string: the exact rational of a decimal literal, or
`none` when the constructor raises `InvalidOperation`.  Whitespace,
underscore grouping and the non-finite literals (`Infinity`, `NaN`) accepted
by `Decimal` fall outside the exact-decimal idealization and are elided. -/
def parseDecimalStr (s : String) : Option ℚ :=
  match s.data with
  | '+' :: cs => parseUnsignedDec cs
  | '-' :: cs => (parseUnsignedDec cs).map (fun q => qSub (mkRat 0 1) q)
  | cs => parseUnsignedDec cs

/-- `_to_dec_safe(x)`: `None` for the `None`/`""`/`"None"` sentinels and for
values whose string form fails decimal parsing; otherwise the exact decimal.
For a finite number `str(x)` re-parses to the same value, so `num q ↦ some q`.
The Python `try/except` makes the function total — as is this model. -/
def _to_dec_safe (x : Raw) : Option ℚ :=
  match x with
  | Raw.none => Option.none
  | Raw.str s => if s = "" ∨ s = "None" then Option.none else parseDecimalStr s
  | Raw.num q => some q

/-- `_fmt(x, nd)`: `None` passes through, otherwise round to `nd` fractional
digits (the `float(...)` conversion is the identity in the idealization). -/
def _fmt (x : Option ℚ) (nd : Nat) : Option ℚ := x.map (roundTo nd)

/-- `_pct(x)`: null-propagating multiply-by-100. -/
def _pct (x : Option ℚ) : Option ℚ := x.map (fun q => qMul q (mkRat 100 1))

/-- `_div(a, b)`: `None` if `a is None` or `b in (None, 0)`, else exact
division (total — no `ZeroDivisionError` can escape). -/
def _div (a b : Option ℚ) : Option ℚ :=
  match a, b with
  | some x, some y => if y = 0 then Option.none else some (qDiv x y)
  | _, _ => Option.none

/-! ## Statement tables and field resolution -/

/-- One row of a statement table: period label → value; `none` models a
`NaN` cell (dropped by `pd.isna` before coercion; a non-null cell holds the
exact rational `_to_dec_safe` produces for it). -/
abbrev Series := List (Date × Option ℚ)

/-- A statement table as the program reads it: line-item label → series. -/
abbrev DataFrame := List (String × Series)

/-- `get_first(df, name_list)`: the series of the first alias present in the
table's index, or `None`. -/
def get_first (df : DataFrame) (name_list : List String) : Option Series :=
  name_list.findSome? (fun n => (df.find? (fun p => p.1 = n)).map (fun p => p.2))

def INC_FIELDS_revenue : List String := ["Total Revenue", "TotalRevenue", "Revenue"]

def INC_FIELDS_grossProfit : List String := ["Gross Profit", "GrossProfit"]

def INC_FIELDS_netIncome : List String := ["Net Income", "NetIncome"]

def INC_FIELDS_rd : List String :=
  ["Research Development", "Research And Development", "R&D", "ResearchDevelopment"]

def BAL_FIELDS_cash : List String :=
  ["Cash And Cash Equivalents", "CashAndCashEquivalents", "Cash"]

def BAL_FIELDS_shortDebt : List String :=
  ["Short/Current Long Term Debt", "Short Term Debt", "Short Long Term Debt",
   "CurrentDebtAndCapitalLeaseObligation", "Current Debt And Capital Lease Obligation"]

def BAL_FIELDS_longDebt : List String :=
  ["Long Term Debt", "LongTermDebt", "LongTermDebtAndCapitalLeaseObligation",
   "Long Term Debt And Capital Lease Obligation"]

def BAL_FIELDS_totalLiab : List String :=
  ["Total Liab", "Total Liabilities", "TotalLiabilitiesNetMinorityInterest",
   "Total Liabilities Net Minority Interest"]

def BAL_FIELDS_equity : List String :=
  ["StockholdersEquity", "Total Stockholder Equity", "Total Stockholders Equity",
   "Total Shareholder Equity", "Total Equity Gross Minority Interest", "Total Equity"]

def BAL_FIELDS_currAssets : List String :=
  ["Total Current Assets", "CurrentAssets", "Current Assets"]

def BAL_FIELDS_currLiab : List String :=
  ["CurrentLiabilities", "Total Current Liabilities", "Current Liabilities"]

def CF_FIELDS_opCF : List String :=
  ["Operating Cash Flow", "OperatingCashFlow", "Total Cash From Operating Activities",
   "Net Cash Provided By Operating Activities"]

def CF_FIELDS_capex : List String :=
  ["CapitalExpenditure", "Capital Expenditures", "Capital Expenditure"]

/-- The thirteen resolved canonical series of `build_rows_from_dfs`. -/
structure Resolved where
  rev_s : Option Series
  gp_s : Option Series
  ni_s : Option Series
  rd_s : Option Series
  cash_s : Option Series
  sdebt_s : Option Series
  ldebt_s : Option Series
  tliab_s : Option Series
  equity_s : Option Series
  ca_s : Option Series
  cl_s : Option Series
  ocf_s : Option Series
  capex_s : Option Series

/-- Lines 77–91 of the source: resolve every canonical metric. -/
def resolve_all (inc_df bal_df cf_df : DataFrame) : Resolved where
  rev_s := get_first inc_df INC_FIELDS_revenue
  gp_s := get_first inc_df INC_FIELDS_grossProfit
  ni_s := get_first inc_df INC_FIELDS_netIncome
  rd_s := get_first inc_df INC_FIELDS_rd
  cash_s := get_first bal_df BAL_FIELDS_cash
  sdebt_s := get_first bal_df BAL_FIELDS_shortDebt
  ldebt_s := get_first bal_df BAL_FIELDS_longDebt
  tliab_s := get_first bal_df BAL_FIELDS_totalLiab
  equity_s := get_first bal_df BAL_FIELDS_equity
  ca_s := get_first bal_df BAL_FIELDS_currAssets
  cl_s := get_first bal_df BAL_FIELDS_currLiab
  ocf_s := get_first cf_df CF_FIELDS_opCF
  capex_s := get_first cf_df CF_FIELDS_capex

/-- The resolved series in the order their columns are chained on line 96. -/
def Resolved.allSeries (r : Resolved) : List (Option Series) :=
  [r.rev_s, r.gp_s, r.ni_s, r.rd_s, r.cash_s, r.sdebt_s, r.ldebt_s, r.tliab_s,
   r.equity_s, r.ca_s, r.cl_s, r.ocf_s, r.capex_s]

/-- `cols(s)`: the period labels of a possibly-unresolved series. -/
def colsOf (s : Option Series) : List Date :=
  match s with
  | Option.none => []
  | some ser => ser.map Prod.fst

/-- Lines 96–101: the deduplicated union of all period labels, sorted
descending (newest first). -/
def aligned_periods (inc_df bal_df cf_df : DataFrame) : List Date :=
  sortDesc (((resolve_all inc_df bal_df cf_df).allSeries.flatMap colsOf).dedup)

/-- `val(s)` at period `d`: `None` for an unresolved series, a missing
label, or a `NaN` cell; otherwise the coerced decimal. -/
def val (s : Option Series) (dt : Date) : Option ℚ :=
  match s with
  | Option.none => Option.none
  | some ser =>
    match ser.find? (fun p => p.1 = dt) with
    | Option.none => Option.none
    | some p => p.2

/-! ## The metric row -/

/-- The `metrics` dict of one output row.  A growth field that the growth
pass never assigns stays `none` (the code never stores Python `None` in a
growth key, so `none` here means "key absent"). -/
structure Metrics where
  fiscalDate : String
  totalRevenue : Option ℚ
  grossProfit : Option ℚ
  netIncome : Option ℚ
  grossMargin_pct : Option ℚ
  netMargin_pct : Option ℚ
  operatingCashflow : Option ℚ
  capitalExpenditures : Option ℚ
  freeCashFlow : Option ℚ
  cashAndCashEquivalents : Option ℚ
  shortTermDebt : Option ℚ
  longTermDebt : Option ℚ
  totalDebt : Option ℚ
  totalLiabilities : Option ℚ
  totalShareholderEquity : Option ℚ
  totalCurrentAssets : Option ℚ
  totalCurrentLiabilities : Option ℚ
  debtToEquity : Option ℚ
  currentRatio : Option ℚ
  cashRatio : Option ℚ
  researchAndDevelopment : Option ℚ
  rdIntensity_pct : Option ℚ
  capexToRevenue_pct : Option ℚ
  distressFlags : List String
  totalRevenue_QoQ_growth_pct : Option ℚ
  netIncome_QoQ_growth_pct : Option ℚ
  totalRevenue_YoY_growth_pct : Option ℚ
  netIncome_YoY_growth_pct : Option ℚ
deriving DecidableEq

/-- One output record. -/
structure Row where
  company : String
  symbol : String
  freq : String
  fiscalDate : String
  metrics : Metrics
  summary : String
  source : String
deriving DecidableEq

/-- `x is not None and x < t` (the flag tests on already-rounded floats). -/
def boolLt (x : Option ℚ) (t : ℚ) : Bool :=
  match x with
  | some v => v < t
  | Option.none => false

/-- `x is not None and x > t`. -/
def boolGt (x : Option ℚ) (t : ℚ) : Bool :=
  match x with
  | some v => t < v
  | Option.none => false

/-- Lines 125–173: the derived metrics and distress flags for one period,
from the thirteen coerced raw values. -/
def metricsOf (ds : String)
    (totalRevenue grossProfit netIncome rd_expense cash shortDebt longDebt
     totalLiab equity currAssets currLiab opCF capex : Option ℚ) : Metrics :=
  let fcf : Option ℚ :=
    match opCF, capex with
    | some o, some c => some (qSub o c)
    | _, _ => Option.none
  let totalDebt : Option ℚ :=
    if shortDebt.isSome || longDebt.isSome then
      some (qAdd (shortDebt.getD 0) (longDebt.getD 0))
    else Option.none
  let m0 : Metrics :=
    { fiscalDate := ds
      totalRevenue := _fmt totalRevenue 2
      grossProfit := _fmt grossProfit 2
      netIncome := _fmt netIncome 2
      grossMargin_pct := _fmt (_pct (_div grossProfit totalRevenue)) 2
      netMargin_pct := _fmt (_pct (_div netIncome totalRevenue)) 2
      operatingCashflow := _fmt opCF 2
      capitalExpenditures := _fmt capex 2
      freeCashFlow := _fmt fcf 2
      cashAndCashEquivalents := _fmt cash 2
      shortTermDebt := _fmt shortDebt 2
      longTermDebt := _fmt longDebt 2
      totalDebt := if totalDebt.isSome then _fmt totalDebt 2 else Option.none
      totalLiabilities := _fmt totalLiab 2
      totalShareholderEquity := _fmt equity 2
      totalCurrentAssets := _fmt currAssets 2
      totalCurrentLiabilities := _fmt currLiab 2
      debtToEquity := _fmt (_div totalLiab equity) 4
      currentRatio := _fmt (_div currAssets currLiab) 4
      cashRatio := _fmt (_div cash currLiab) 4
      researchAndDevelopment := _fmt rd_expense 2
      rdIntensity_pct := _fmt (_pct (_div rd_expense totalRevenue)) 2
      capexToRevenue_pct := _fmt (_pct (_div capex totalRevenue)) 2
      distressFlags := []
      totalRevenue_QoQ_growth_pct := Option.none
      netIncome_QoQ_growth_pct := Option.none
      totalRevenue_YoY_growth_pct := Option.none
      netIncome_YoY_growth_pct := Option.none }
  let flags : List String :=
    (if boolLt m0.currentRatio 1 then ["current_ratio_lt_1"] else []) ++
    (if boolLt m0.freeCashFlow 0 then ["negative_fcf"] else []) ++
    (if boolGt m0.debtToEquity 2 then ["high_debt_to_equity"] else [])
  { m0 with distressFlags := flags }

/-- Plain rendering of a nullable number in the summary string (Python's
float repr, abstracted to an exact rendering of the rational). -/
def showOpt (x : Option ℚ) : String :=
  match x with
  | Option.none => "None"
  | some q =>
    if q.den = 1 then pyIntStr q.num
    else pyIntStr q.num ++ "/" ++ String.mk (natDigits q.den)

/-- Lines 104–174: one `MetricRow` for period `dt`. -/
def buildRow (company symbol freq_label : String) (r : Resolved) (dt : Date) : Row :=
  let totalRevenue := val r.rev_s dt
  let grossProfit := val r.gp_s dt
  let netIncome := val r.ni_s dt
  let rd_expense := val r.rd_s dt
  let cash := val r.cash_s dt
  let shortDebt := val r.sdebt_s dt
  let longDebt := val r.ldebt_s dt
  let totalLiab := val r.tliab_s dt
  let equity := val r.equity_s dt
  let currAssets := val r.ca_s dt
  let currLiab := val r.cl_s dt
  let opCF := val r.ocf_s dt
  let capex := val r.capex_s dt
  let ds := dt.iso
  { company := company
    symbol := symbol
    freq := freq_label
    fiscalDate := ds
    metrics := metricsOf ds totalRevenue grossProfit netIncome rd_expense cash
      shortDebt longDebt totalLiab equity currAssets currLiab opCF capex
    summary := company ++ " " ++ freq_label ++ " " ++ ds ++ ": Rev=" ++
      showOpt (_fmt totalRevenue 2) ++ ", NI=" ++ showOpt (_fmt netIncome 2) ++
      ", GM%=" ++ showOpt (_fmt (_pct (_div grossProfit totalRevenue)) 2) ++
      ", NM%=" ++ showOpt (_fmt (_pct (_div netIncome totalRevenue)) 2)
    source := "YahooFinance" }

/-! ## Growth calculator -/

/-- The guarded growth value of lines 183–185: present iff both operands are
numeric and the previous value is truthy (non-zero); then
`round((cv - pv) / pv * 100, 2)`. -/
def qoqVal (cv pv : Option ℚ) : Option ℚ :=
  match cv, pv with
  | some c, some p =>
    if p = 0 then Option.none
    else some (roundTo 2 (qMul (qDiv (qSub c p) p) (mkRat 100 1)))
  | _, _ => Option.none

/-- Lines 180–185: conditionally assign the two QoQ keys from the previous
row (no assignment when the guard fails, so an absent key stays absent). -/
def addQoQ (r p : Row) : Row :=
  let m0 := r.metrics
  let m1 :=
    match qoqVal m0.totalRevenue p.metrics.totalRevenue with
    | some g => { m0 with totalRevenue_QoQ_growth_pct := some g }
    | Option.none => m0
  let m2 :=
    match qoqVal m1.netIncome p.metrics.netIncome with
    | some g => { m1 with netIncome_QoQ_growth_pct := some g }
    | Option.none => m1
  { r with metrics := m2 }

/-- Lines 190–194: conditionally assign the two YoY keys from the
prior-year row. -/
def addYoY (r p : Row) : Row :=
  let m0 := r.metrics
  let m1 :=
    match qoqVal m0.totalRevenue p.metrics.totalRevenue with
    | some g => { m0 with totalRevenue_YoY_growth_pct := some g }
    | Option.none => m0
  let m2 :=
    match qoqVal m1.netIncome p.metrics.netIncome with
    | some g => { m1 with netIncome_YoY_growth_pct := some g }
    | Option.none => m1
  { r with metrics := m2 }

/-- Lines 187–188: the prior-year lookup key
`str(int(ds[:4]) - 1) + "-" + ds[5:]`, or `none` when `int` raises and the
bare `except` silently skips the row's YoY block. -/
def yoyKey (ds : String) : Option String :=
  match pyIntOfDigits (ds.data.take 4) with
  | Option.none => Option.none
  | some y => some (pyIntStr ((y : ℤ) - 1) ++ "-" ++ String.mk (ds.data.drop 5))

/-- `by_date.get(key)` where `by_date = {r["fiscalDate"]: r for r in out}`:
a Python dict comprehension keeps the last row for a duplicated key. -/
def dictGet (rows : List Row) (key : String) : Option Row :=
  rows.reverse.find? (fun r => r.fiscalDate = key)

/-- Lines 180–185: the QoQ half of the loop body — when a next-older row
exists, conditionally assign the QoQ keys from it. -/
def qoqStep (rows : List Row) (i : Nat) (r : Row) : Row :=
  match rows[i + 1]? with
  | some p => addQoQ r p
  | Option.none => r

/-- Lines 189–194: apply the YoY assignments from the row found under the
prior-year key (`if prev_y:` — a found row dict is always truthy). -/
def yoyApply (rows : List Row) (key : String) (r1 : Row) : Row :=
  match dictGet rows key with
  | some p => addYoY r1 p
  | Option.none => r1

/-- Lines 186–196: the YoY half of the loop body; a key that fails to build
(`int` raised, swallowed by the bare `except`) skips the block. -/
def yoyStep (rows : List Row) (r1 : Row) : Row :=
  match yoyKey r1.fiscalDate with
  | Option.none => r1
  | some key => yoyApply rows key r1

/-- The growth mutation applied to the row at index `i` (lines 178–196).
Only growth keys are ever written and only never-written keys are read from
other rows, so the in-place Python loop equals this pure per-row map. -/
def growthAt (rows : List Row) (i : Nat) (r : Row) : Row :=
  yoyStep rows (qoqStep rows i r)

/-- The whole QoQ/YoY pass over the built row list. -/
def applyGrowth (rows : List Row) : List Row :=
  rows.enum.map (fun p => growthAt rows p.1 p.2)

/-- `build_rows_from_dfs`: resolve series, align periods, build one row per
period (newest first), then add growth fields. -/
def build_rows_from_dfs (company symbol : String)
    (inc_df bal_df cf_df : DataFrame) (freq_label : String) : List Row :=
  let r := resolve_all inc_df bal_df cf_df
  let dates := aligned_periods inc_df bal_df cf_df
  applyGrowth (dates.map (buildRow company symbol freq_label r))

/-! ## Orchestrator -/

def SYMBOL_MAP : List (String × String) :=
  [("AIXTRON", "AIXA.DE"), ("Applied Materials", "AMAT"), ("AJ", "2802.T"),
   ("ASML", "ASML"), ("Naura", "002371.SZ"), ("TEL (Tokyo Electron)", "8035.T"),
   ("KLA", "KLAC"), ("CAMECA (AMTEK)", "AME"), ("OSI Systems", "OSIS"),
   ("Genes Tech", "8257.HK"), ("Scientech", "3583.TW")]

/-- The six statement tables `yfinance` returns for one ticker. -/
structure Tables where
  inc_a : DataFrame
  bal_a : DataFrame
  cf_a : DataFrame
  inc_q : DataFrame
  bal_q : DataFrame
  cf_q : DataFrame

/-- `fetch_yahoo_financials`, with the external data source abstracted as an
oracle `fetch` that either returns the six tables or raises (transport or
parse error, modelled as `Except.error`).  An absent/empty symbol returns
zero rows (after a warning) without consulting the oracle. -/
def fetch_yahoo_financials (fetch : String → Except String Tables)
    (company symbol : String) : Except String (List Row) :=
  if symbol = "" then Except.ok []
  else
    match fetch symbol with
    | Except.error e => Except.error e
    | Except.ok t =>
      Except.ok (build_rows_from_dfs company symbol t.inc_q t.bal_q t.cf_q "Quarter" ++
        build_rows_from_dfs company symbol t.inc_a t.bal_a t.cf_a "Annual")

/-- One iteration of `main`'s loop for the company/symbol pair `p`:
append the fetched rows (catching any exception as zero rows) and collect
the warning lines the iteration prints. -/
def main_step (fetch : String → Except String Tables)
    (acc : List Row × List String) (p : String × String) : List Row × List String :=
  match fetch_yahoo_financials fetch p.1 p.2 with
  | Except.ok recs =>
    if p.2 = "" then (acc.1 ++ recs, acc.2 ++ ["[warn] No symbol for " ++ p.1])
    else (acc.1 ++ recs, acc.2)
  | Except.error e =>
    (acc.1, acc.2 ++ ["[warn] " ++ p.1 ++ " (" ++ p.2 ++ ") failed: " ++ e])

/-- `main`: fold over the configured companies, catching any per-company
exception, collecting the aggregate record list (handed to the writer) and
the warning lines.  The fixed `time.sleep` pause is I/O and not modelled. -/
def run_main (fetch : String → Except String Tables)
    (companies : List (String × String)) : List Row × List String :=
  companies.foldl (main_step fetch) ([], [])

/-! ## Helper lemmas about the primitives -/

theorem _fmt_eq_none {x : Option ℚ} {nd : Nat} : _fmt x nd = Option.none ↔ x = Option.none := by
  cases x <;> simp [_fmt]

theorem _fmt_some (q : ℚ) (nd : Nat) : _fmt (some q) nd = some (roundTo nd q) := rfl

theorem _pct_eq_none {x : Option ℚ} : _pct x = Option.none ↔ x = Option.none := by
  cases x <;> simp [_pct]

theorem _div_eq_none {a b : Option ℚ} :
    _div a b = Option.none ↔ a = Option.none ∨ b = Option.none ∨ b = some 0 := by
  cases a with
  | none => simp [_div]
  | some x =>
    cases b with
    | none => simp [_div]
    | some y =>
      by_cases hy : y = 0
      · simp [_div, hy]
      · simp [_div, hy]

theorem qoqVal_eq_some {c p : ℚ} (hp : p ≠ 0) :
    qoqVal (some c) (some p) = some (roundTo 2 ((c - p) / p * 100)) := by
  rw [qoqVal]
  rw [if_neg hp, qMul_eq, qDiv_eq, qSub_eq]
  norm_num

theorem qoqVal_isSome_iff {cv pv : Option ℚ} :
    (∃ g, qoqVal cv pv = some g) ↔ ∃ c p, cv = some c ∧ pv = some p ∧ p ≠ 0 := by
  cases cv with
  | none => simp [qoqVal]
  | some c =>
    cases pv with
    | none => simp [qoqVal]
    | some p =>
      by_cases hp : p = 0
      · simp [qoqVal, hp]
      · simp [qoqVal, hp]

/-! ## Helper lemmas about the row builder -/

theorem metricsOf_fiscalDate (ds : String) (a b c d e f g h i j k l m : Option ℚ) :
    (metricsOf ds a b c d e f g h i j k l m).fiscalDate = ds := rfl

theorem metricsOf_totalRevenue (ds : String) (a b c d e f g h i j k l m : Option ℚ) :
    (metricsOf ds a b c d e f g h i j k l m).totalRevenue = _fmt a 2 := rfl

theorem metricsOf_netIncome (ds : String) (a b c d e f g h i j k l m : Option ℚ) :
    (metricsOf ds a b c d e f g h i j k l m).netIncome = _fmt c 2 := rfl

theorem metricsOf_grossMargin (ds : String) (a b c d e f g h i j k l m : Option ℚ) :
    (metricsOf ds a b c d e f g h i j k l m).grossMargin_pct = _fmt (_pct (_div b a)) 2 := rfl

theorem metricsOf_netMargin (ds : String) (a b c d e f g h i j k l m : Option ℚ) :
    (metricsOf ds a b c d e f g h i j k l m).netMargin_pct = _fmt (_pct (_div c a)) 2 := rfl

theorem metricsOf_debtToEquity (ds : String) (a b c d e f g h i j k l m : Option ℚ) :
    (metricsOf ds a b c d e f g h i j k l m).debtToEquity = _fmt (_div h i) 4 := rfl

theorem metricsOf_currentRatio (ds : String) (a b c d e f g h i j k l m : Option ℚ) :
    (metricsOf ds a b c d e f g h i j k l m).currentRatio = _fmt (_div j k) 4 := rfl

theorem metricsOf_cashRatio (ds : String) (a b c d e f g h i j k l m : Option ℚ) :
    (metricsOf ds a b c d e f g h i j k l m).cashRatio = _fmt (_div e k) 4 := rfl

theorem metricsOf_rdIntensity (ds : String) (a b c d e f g h i j k l m : Option ℚ) :
    (metricsOf ds a b c d e f g h i j k l m).rdIntensity_pct = _fmt (_pct (_div d a)) 2 := rfl

theorem metricsOf_capexToRevenue (ds : String) (a b c d e f g h i j k l m : Option ℚ) :
    (metricsOf ds a b c d e f g h i j k l m).capexToRevenue_pct = _fmt (_pct (_div m a)) 2 := rfl

theorem metricsOf_freeCashFlow (ds : String) (a b c d e f g h i j k l m : Option ℚ) :
    (metricsOf ds a b c d e f g h i j k l m).freeCashFlow =
      _fmt (match l, m with
            | some o, some cx => some (qSub o cx)
            | _, _ => Option.none) 2 := rfl

theorem metricsOf_totalDebt (ds : String) (a b c d e f g h i j k l m : Option ℚ) :
    (metricsOf ds a b c d e f g h i j k l m).totalDebt =
      (if f.isSome || g.isSome then _fmt (some (qAdd (f.getD 0) (g.getD 0))) 2
       else Option.none) := by
  cases f <;> cases g <;> rfl

theorem metricsOf_QoQ_none (ds : String) (a b c d e f g h i j k l m : Option ℚ) :
    (metricsOf ds a b c d e f g h i j k l m).totalRevenue_QoQ_growth_pct = Option.none ∧
      (metricsOf ds a b c d e f g h i j k l m).netIncome_QoQ_growth_pct = Option.none := ⟨rfl, rfl⟩

theorem metricsOf_YoY_none (ds : String) (a b c d e f g h i j k l m : Option ℚ) :
    (metricsOf ds a b c d e f g h i j k l m).totalRevenue_YoY_growth_pct = Option.none ∧
      (metricsOf ds a b c d e f g h i j k l m).netIncome_YoY_growth_pct = Option.none := ⟨rfl, rfl⟩

theorem metricsOf_distressFlags (ds : String) (a b c d e f g h i j k l m : Option ℚ) :
    (metricsOf ds a b c d e f g h i j k l m).distressFlags =
      (if boolLt (_fmt (_div j k) 4) 1 then ["current_ratio_lt_1"] else []) ++
      (if boolLt (metricsOf ds a b c d e f g h i j k l m).freeCashFlow 0 then ["negative_fcf"] else []) ++
      (if boolGt (_fmt (_div h i) 4) 2 then ["high_debt_to_equity"] else []) := rfl

theorem boolLt_iff {x : Option ℚ} {t : ℚ} : boolLt x t = true ↔ ∃ v, x = some v ∧ v < t := by
  cases x with
  | none => simp [boolLt]
  | some v => simp [boolLt]

theorem boolGt_iff {x : Option ℚ} {t : ℚ} : boolGt x t = true ↔ ∃ v, x = some v ∧ t < v := by
  cases x with
  | none => simp [boolGt]
  | some v => simp [boolGt]

/-! ## Helper lemmas about the growth pass -/

/-- `addQoQ` only (conditionally) writes the two QoQ keys. -/
theorem addQoQ_eq (r p : Row) :
    addQoQ r p =
      { r with metrics :=
        { r.metrics with
            totalRevenue_QoQ_growth_pct :=
              match qoqVal r.metrics.totalRevenue p.metrics.totalRevenue with
              | some g => some g
              | Option.none => r.metrics.totalRevenue_QoQ_growth_pct
            netIncome_QoQ_growth_pct :=
              match qoqVal r.metrics.netIncome p.metrics.netIncome with
              | some g => some g
              | Option.none => r.metrics.netIncome_QoQ_growth_pct } } := by
  rw [addQoQ]
  cases h1 : qoqVal r.metrics.totalRevenue p.metrics.totalRevenue <;>
    cases h2 : qoqVal r.metrics.netIncome p.metrics.netIncome <;>
      simp only [h1, h2]

/-- `addYoY` only (conditionally) writes the two YoY keys. -/
theorem addYoY_eq (r p : Row) :
    addYoY r p =
      { r with metrics :=
        { r.metrics with
            totalRevenue_YoY_growth_pct :=
              match qoqVal r.metrics.totalRevenue p.metrics.totalRevenue with
              | some g => some g
              | Option.none => r.metrics.totalRevenue_YoY_growth_pct
            netIncome_YoY_growth_pct :=
              match qoqVal r.metrics.netIncome p.metrics.netIncome with
              | some g => some g
              | Option.none => r.metrics.netIncome_YoY_growth_pct } } := by
  rw [addYoY]
  cases h1 : qoqVal r.metrics.totalRevenue p.metrics.totalRevenue <;>
    cases h2 : qoqVal r.metrics.netIncome p.metrics.netIncome <;>
      simp only [h1, h2]

theorem qoqStep_of_none {rows : List Row} {i : Nat} (r : Row)
    (h : rows[i + 1]? = Option.none) : qoqStep rows i r = r := by
  unfold qoqStep
  rw [h]

theorem qoqStep_of_some {rows : List Row} {i : Nat} {p : Row} (r : Row)
    (h : rows[i + 1]? = some p) : qoqStep rows i r = addQoQ r p := by
  unfold qoqStep
  rw [h]

theorem yoyApply_of_none {rows : List Row} {key : String} (r1 : Row)
    (h : dictGet rows key = Option.none) : yoyApply rows key r1 = r1 := by
  unfold yoyApply
  rw [h]

theorem yoyApply_of_some {rows : List Row} {key : String} {p : Row} (r1 : Row)
    (h : dictGet rows key = some p) : yoyApply rows key r1 = addYoY r1 p := by
  unfold yoyApply
  rw [h]

theorem yoyStep_of_keyNone {rows : List Row} {r1 : Row}
    (h : yoyKey r1.fiscalDate = Option.none) : yoyStep rows r1 = r1 := by
  unfold yoyStep
  rw [h]

theorem yoyStep_of_keySome {rows : List Row} {r1 : Row} {key : String}
    (h : yoyKey r1.fiscalDate = some key) : yoyStep rows r1 = yoyApply rows key r1 := by
  unfold yoyStep
  rw [h]

theorem applyGrowth_getElem (l : List Row) (i : Nat) :
    (applyGrowth l)[i]? = (l[i]?).map (growthAt l i) := by
  rw [applyGrowth, List.getElem?_map, List.getElem?_enum]
  cases l[i]? <;> rfl

theorem applyGrowth_length (l : List Row) : (applyGrowth l).length = l.length := by
  rw [applyGrowth, List.length_map, List.enum_length]

/-! ## The ISO date string and the YoY key -/

/-- The component bounds under which the zero-padded ISO rendering is
faithful and injective (every `Date.valid` date satisfies them). -/
def Date.isoBounds (dt : Date) : Prop := dt.y ≤ 9999 ∧ dt.m ≤ 99 ∧ dt.d ≤ 99

theorem Date.valid_isoBounds {dt : Date} (h : dt.valid) : dt.isoBounds := by
  obtain ⟨h1, h2, h3, h4, h5, h6⟩ := h
  exact ⟨by omega, by omega, by omega⟩

theorem padDigits_length_of_le {n w k : Nat} (hw : k + 1 ≤ w) (h : n < 10 ^ (k + 1)) :
    (padDigits w n).length = w := by
  have := natDigits_length_of_lt h
  exact padDigits_length (by omega)

theorem pad4_length {n : Nat} (h : n ≤ 9999) : (padDigits 4 n).length = 4 :=
  @padDigits_length_of_le n 4 3 (by omega) (by norm_num; omega)

theorem pad2_length {n : Nat} (h : n ≤ 99) : (padDigits 2 n).length = 2 :=
  @padDigits_length_of_le n 2 1 (by omega) (by norm_num; omega)

theorem iso_data (dt : Date) : (Date.iso dt).data = dt.isoChars := rfl

theorem iso_take4 {dt : Date} (h : dt.y ≤ 9999) :
    (Date.iso dt).data.take 4 = padDigits 4 dt.y := by
  rw [iso_data, Date.isoChars]
  exact List.take_left' (pad4_length h)

theorem iso_drop5 {dt : Date} (h : dt.y ≤ 9999) :
    (Date.iso dt).data.drop 5 = padDigits 2 dt.m ++ '-' :: padDigits 2 dt.d := by
  rw [iso_data, Date.isoChars, List.append_cons]
  refine List.drop_left' ?_
  rw [List.length_append, pad4_length h]
  rfl

/-- When the decimal form already has width `w`, padding is the identity. -/
theorem padDigits_eq_natDigits {n w : Nat} (h : (natDigits n).length = w) :
    padDigits w n = natDigits n := by
  rw [padDigits, h]
  simp

theorem pyIntStr_eq_pad4 {n : Nat} (hlo : 1000 ≤ n) (hhi : n ≤ 9999) :
    pyIntStr ((n : ℤ)) = String.mk (padDigits 4 n) := by
  rw [pyIntStr, if_neg (by omega)]
  have ht : ((n : ℤ)).toNat = n := by omega
  rw [ht, padDigits_eq_natDigits]
  exact natDigits_length_exact (by omega) (by norm_num; omega) (by norm_num; omega)

theorem mk_append (a b : List Char) : String.mk a ++ String.mk b = String.mk (a ++ b) := rfl

/-- For a date in the ISO-faithful year range, the YoY key of its rendering
is exactly the rendering of the same month-day one year earlier. -/
theorem yoyKey_iso {dt : Date} (hy : 1001 ≤ dt.y) (hy2 : dt.y ≤ 9999) :
    yoyKey (Date.iso dt) = some (Date.iso ⟨dt.y - 1, dt.m, dt.d⟩) := by
  rw [yoyKey, iso_take4 hy2, pyIntOfDigits_padDigits]
  show some (pyIntStr ((dt.y : ℤ) - 1) ++ "-" ++ String.mk ((Date.iso dt).data.drop 5)) = _
  have hz : ((dt.y : ℤ)) - 1 = ((dt.y - 1 : Nat) : ℤ) := by omega
  rw [hz, pyIntStr_eq_pad4 (by omega) (by omega), iso_drop5 hy2]
  have hdash : ("-" : String) = String.mk ['-'] := rfl
  rw [hdash, mk_append, mk_append]
  rw [Date.iso, Date.isoChars]
  simp

theorem pad_inj_of_length {w a b : Nat} (h : padDigits w a = padDigits w b) : a = b :=
  padDigits_inj h

/-- The ISO rendering is injective on dates within the padding bounds. -/
theorem iso_inj {a b : Date} (ha : a.isoBounds) (hb : b.isoBounds)
    (h : Date.iso a = Date.iso b) : a = b := by
  obtain ⟨hay, ham, had⟩ := ha
  obtain ⟨hby, hbm, hbd⟩ := hb
  have hdata : (Date.iso a).data = (Date.iso b).data := by rw [h]
  have htake : (Date.iso a).data.take 4 = (Date.iso b).data.take 4 := by rw [hdata]
  rw [iso_take4 hay, iso_take4 hby] at htake
  have hy : a.y = b.y := pad_inj_of_length htake
  have hdrop : (Date.iso a).data.drop 5 = (Date.iso b).data.drop 5 := by rw [hdata]
  rw [iso_drop5 hay, iso_drop5 hby] at hdrop
  have htake2 : (padDigits 2 a.m ++ '-' :: padDigits 2 a.d).take 2 =
      (padDigits 2 b.m ++ '-' :: padDigits 2 b.d).take 2 := by rw [hdrop]
  rw [List.take_left' (pad2_length ham), List.take_left' (pad2_length hbm)] at htake2
  have hm : a.m = b.m := pad_inj_of_length htake2
  rw [hm] at hdrop
  have htail : ('-' :: padDigits 2 a.d : List Char) = '-' :: padDigits 2 b.d :=
    List.append_cancel_left hdrop
  have hd : a.d = b.d := pad_inj_of_length (List.cons.injEq .. |>.mp htail).2
  cases a
  cases b
  simp only at hy hm hd
  rw [hy, hm, hd]

/-! ## Unique lookup in the by-date dict -/

theorem find?_eq_some_of_unique {α : Type} {l : List α} {pr : α → Bool} {a : α}
    (ha : a ∈ l) (hpa : pr a = true) (huniq : ∀ b ∈ l, pr b = true → b = a) :
    l.find? pr = some a := by
  induction l with
  | nil => cases ha
  | cons h t ih =>
    by_cases hh : pr h = true
    · have : h = a := huniq h (List.mem_cons_self h t) hh
      rw [List.find?_cons_of_pos _ hh, this]
    · have hne : a ≠ h := by
        intro he
        rw [he] at hpa
        exact hh hpa
      have hat : a ∈ t := by
        cases List.mem_cons.mp ha with
        | inl he => exact absurd he hne
        | inr ht => exact ht
      rw [List.find?_cons_of_neg _ (by simpa using hh)]
      exact ih hat (fun b hb hpb => huniq b (List.mem_cons_of_mem _ hb) hpb)

/-- `by_date.get (iso p)` over the freshly built rows: returns the row built
for `p` when `p` is among the (deduplicated) dates, else `None`. -/
theorem dictGet_map_iso (dates : List Date) (f : Date → Row)
    (hf : ∀ dt, (f dt).fiscalDate = dt.iso)
    (hbounds : ∀ dt ∈ dates, dt.isoBounds) (p : Date) (hp : p.isoBounds) :
    dictGet (dates.map f) (Date.iso p) =
      (if p ∈ dates then some (f p) else Option.none) := by
  by_cases hmem : p ∈ dates
  · rw [if_pos hmem, dictGet]
    refine find?_eq_some_of_unique ?_ ?_ ?_
    · rw [List.mem_reverse]
      exact List.mem_map_of_mem f hmem
    · simp [hf p]
    · intro b hb hpb
      rw [List.mem_reverse] at hb
      obtain ⟨q, hq, hfq⟩ := List.mem_map.mp hb
      rw [← hfq] at hpb
      rw [hf q] at hpb
      have hiso : Date.iso q = Date.iso p := by simpa using hpb
      have : q = p := iso_inj (hbounds q hq) hp hiso
      rw [← hfq, this]
  · rw [if_neg hmem, dictGet]
    rw [List.find?_eq_none]
    intro b hb
    rw [List.mem_reverse] at hb
    obtain ⟨q, hq, hfq⟩ := List.mem_map.mp hb
    rw [← hfq, hf q]
    simp only [decide_eq_true_eq]
    intro hiso
    exact hmem (iso_inj (hbounds q hq) hp hiso ▸ hq)

/-! ## What the growth pass does and does not change -/

theorem addQoQ_fiscalDate (r p : Row) : (addQoQ r p).fiscalDate = r.fiscalDate := by
  rw [addQoQ_eq]

theorem growthAt_preserves (rows : List Row) (i : Nat) (r : Row) :
    (growthAt rows i r).fiscalDate = r.fiscalDate ∧
    (growthAt rows i r).metrics.totalRevenue = r.metrics.totalRevenue ∧
    (growthAt rows i r).metrics.netIncome = r.metrics.netIncome ∧
    (growthAt rows i r).metrics.grossMargin_pct = r.metrics.grossMargin_pct ∧
    (growthAt rows i r).metrics.netMargin_pct = r.metrics.netMargin_pct ∧
    (growthAt rows i r).metrics.debtToEquity = r.metrics.debtToEquity ∧
    (growthAt rows i r).metrics.currentRatio = r.metrics.currentRatio ∧
    (growthAt rows i r).metrics.cashRatio = r.metrics.cashRatio ∧
    (growthAt rows i r).metrics.rdIntensity_pct = r.metrics.rdIntensity_pct ∧
    (growthAt rows i r).metrics.capexToRevenue_pct = r.metrics.capexToRevenue_pct ∧
    (growthAt rows i r).metrics.freeCashFlow = r.metrics.freeCashFlow ∧
    (growthAt rows i r).metrics.totalDebt = r.metrics.totalDebt ∧
    (growthAt rows i r).metrics.distressFlags = r.metrics.distressFlags := by
  rw [growthAt]
  cases hprev : rows[i + 1]? with
  | none =>
    rw [qoqStep_of_none r hprev]
    cases hkey : yoyKey r.fiscalDate with
    | none =>
      rw [yoyStep_of_keyNone hkey]
      exact ⟨rfl, rfl, rfl, rfl, rfl, rfl, rfl, rfl, rfl, rfl, rfl, rfl, rfl⟩
    | some key =>
      rw [yoyStep_of_keySome hkey]
      cases hget : dictGet rows key with
      | none =>
        rw [yoyApply_of_none r hget]
        exact ⟨rfl, rfl, rfl, rfl, rfl, rfl, rfl, rfl, rfl, rfl, rfl, rfl, rfl⟩
      | some p =>
        rw [yoyApply_of_some r hget, addYoY_eq]
        exact ⟨rfl, rfl, rfl, rfl, rfl, rfl, rfl, rfl, rfl, rfl, rfl, rfl, rfl⟩
  | some p0 =>
    rw [qoqStep_of_some r hprev]
    have hfd : (addQoQ r p0).fiscalDate = r.fiscalDate := addQoQ_fiscalDate r p0
    cases hkey : yoyKey (addQoQ r p0).fiscalDate with
    | none =>
      rw [yoyStep_of_keyNone hkey, addQoQ_eq]
      exact ⟨rfl, rfl, rfl, rfl, rfl, rfl, rfl, rfl, rfl, rfl, rfl, rfl, rfl⟩
    | some key =>
      rw [yoyStep_of_keySome hkey]
      cases hget : dictGet rows key with
      | none =>
        rw [yoyApply_of_none _ hget, addQoQ_eq]
        exact ⟨rfl, rfl, rfl, rfl, rfl, rfl, rfl, rfl, rfl, rfl, rfl, rfl, rfl⟩
      | some p =>
        rw [yoyApply_of_some _ hget, addYoY_eq, addQoQ_eq]
        exact ⟨rfl, rfl, rfl, rfl, rfl, rfl, rfl, rfl, rfl, rfl, rfl, rfl, rfl⟩

theorem growthAt_qoq_fields (rows : List Row) (i : Nat) (r : Row) :
    (growthAt rows i r).metrics.totalRevenue_QoQ_growth_pct =
      (match rows[i + 1]? with
       | some p =>
         match qoqVal r.metrics.totalRevenue p.metrics.totalRevenue with
         | some g => some g
         | Option.none => r.metrics.totalRevenue_QoQ_growth_pct
       | Option.none => r.metrics.totalRevenue_QoQ_growth_pct) ∧
    (growthAt rows i r).metrics.netIncome_QoQ_growth_pct =
      (match rows[i + 1]? with
       | some p =>
         match qoqVal r.metrics.netIncome p.metrics.netIncome with
         | some g => some g
         | Option.none => r.metrics.netIncome_QoQ_growth_pct
       | Option.none => r.metrics.netIncome_QoQ_growth_pct) := by
  rw [growthAt]
  cases hprev : rows[i + 1]? with
  | none =>
    rw [qoqStep_of_none r hprev]
    cases hkey : yoyKey r.fiscalDate with
    | none =>
      rw [yoyStep_of_keyNone hkey]
      exact ⟨rfl, rfl⟩
    | some key =>
      rw [yoyStep_of_keySome hkey]
      cases hget : dictGet rows key with
      | none =>
        rw [yoyApply_of_none r hget]
        exact ⟨rfl, rfl⟩
      | some p =>
        rw [yoyApply_of_some r hget, addYoY_eq]
        exact ⟨rfl, rfl⟩
  | some p0 =>
    rw [qoqStep_of_some r hprev]
    cases hkey : yoyKey (addQoQ r p0).fiscalDate with
    | none =>
      rw [yoyStep_of_keyNone hkey, addQoQ_eq]
      exact ⟨rfl, rfl⟩
    | some key =>
      rw [yoyStep_of_keySome hkey]
      cases hget : dictGet rows key with
      | none =>
        rw [yoyApply_of_none _ hget, addQoQ_eq]
        exact ⟨rfl, rfl⟩
      | some p =>
        rw [yoyApply_of_some _ hget, addYoY_eq, addQoQ_eq]
        exact ⟨rfl, rfl⟩

theorem growthAt_qoq_of_none (rows : List Row) (i : Nat) (r : Row)
    (h : rows[i + 1]? = Option.none) :
    (growthAt rows i r).metrics.totalRevenue_QoQ_growth_pct =
        r.metrics.totalRevenue_QoQ_growth_pct ∧
      (growthAt rows i r).metrics.netIncome_QoQ_growth_pct =
        r.metrics.netIncome_QoQ_growth_pct := by
  have hq := growthAt_qoq_fields rows i r
  rw [h] at hq
  exact hq

theorem growthAt_qoq_of_some (rows : List Row) (i : Nat) (r : Row) {p : Row}
    (h : rows[i + 1]? = some p) :
    (growthAt rows i r).metrics.totalRevenue_QoQ_growth_pct =
      (match qoqVal r.metrics.totalRevenue p.metrics.totalRevenue with
       | some g => some g
       | Option.none => r.metrics.totalRevenue_QoQ_growth_pct) ∧
    (growthAt rows i r).metrics.netIncome_QoQ_growth_pct =
      (match qoqVal r.metrics.netIncome p.metrics.netIncome with
       | some g => some g
       | Option.none => r.metrics.netIncome_QoQ_growth_pct) := by
  have hq := growthAt_qoq_fields rows i r
  rw [h] at hq
  exact hq

theorem growthAt_yoy_of_keyNone (rows : List Row) (i : Nat) (r : Row)
    (h : yoyKey r.fiscalDate = Option.none) :
    (growthAt rows i r).metrics.totalRevenue_YoY_growth_pct =
        r.metrics.totalRevenue_YoY_growth_pct ∧
      (growthAt rows i r).metrics.netIncome_YoY_growth_pct =
        r.metrics.netIncome_YoY_growth_pct := by
  rw [growthAt]
  cases hprev : rows[i + 1]? with
  | none =>
    rw [qoqStep_of_none r hprev, yoyStep_of_keyNone h]
    exact ⟨rfl, rfl⟩
  | some p0 =>
    rw [qoqStep_of_some r hprev]
    rw [yoyStep_of_keyNone (by rw [addQoQ_fiscalDate]; exact h), addQoQ_eq]
    exact ⟨rfl, rfl⟩

theorem growthAt_yoy_of_notFound (rows : List Row) (i : Nat) (r : Row) {key : String}
    (hk : yoyKey r.fiscalDate = some key) (hg : dictGet rows key = Option.none) :
    (growthAt rows i r).metrics.totalRevenue_YoY_growth_pct =
        r.metrics.totalRevenue_YoY_growth_pct ∧
      (growthAt rows i r).metrics.netIncome_YoY_growth_pct =
        r.metrics.netIncome_YoY_growth_pct := by
  rw [growthAt]
  cases hprev : rows[i + 1]? with
  | none =>
    rw [qoqStep_of_none r hprev, yoyStep_of_keySome hk, yoyApply_of_none r hg]
    exact ⟨rfl, rfl⟩
  | some p0 =>
    rw [qoqStep_of_some r hprev]
    rw [yoyStep_of_keySome (by rw [addQoQ_fiscalDate]; exact hk), yoyApply_of_none _ hg,
      addQoQ_eq]
    exact ⟨rfl, rfl⟩

theorem growthAt_yoy_of_found (rows : List Row) (i : Nat) (r : Row) {key : String} {p : Row}
    (hk : yoyKey r.fiscalDate = some key) (hg : dictGet rows key = some p) :
    (growthAt rows i r).metrics.totalRevenue_YoY_growth_pct =
      (match qoqVal r.metrics.totalRevenue p.metrics.totalRevenue with
       | some g => some g
       | Option.none => r.metrics.totalRevenue_YoY_growth_pct) ∧
    (growthAt rows i r).metrics.netIncome_YoY_growth_pct =
      (match qoqVal r.metrics.netIncome p.metrics.netIncome with
       | some g => some g
       | Option.none => r.metrics.netIncome_YoY_growth_pct) := by
  rw [growthAt]
  cases hprev : rows[i + 1]? with
  | none =>
    rw [qoqStep_of_none r hprev, yoyStep_of_keySome hk, yoyApply_of_some r hg, addYoY_eq]
    exact ⟨rfl, rfl⟩
  | some p0 =>
    rw [qoqStep_of_some r hprev]
    rw [yoyStep_of_keySome (by rw [addQoQ_fiscalDate]; exact hk), yoyApply_of_some _ hg,
      addYoY_eq, addQoQ_eq]
    exact ⟨rfl, rfl⟩

/-! ## The built row list, indexed -/

theorem buildRow_fiscalDate (c s fl : String) (r : Resolved) (dt : Date) :
    (buildRow c s fl r dt).fiscalDate = dt.iso := rfl

theorem buildRow_metrics (c s fl : String) (r : Resolved) (dt : Date) :
    (buildRow c s fl r dt).metrics =
      metricsOf dt.iso (val r.rev_s dt) (val r.gp_s dt) (val r.ni_s dt) (val r.rd_s dt)
        (val r.cash_s dt) (val r.sdebt_s dt) (val r.ldebt_s dt) (val r.tliab_s dt)
        (val r.equity_s dt) (val r.ca_s dt) (val r.cl_s dt) (val r.ocf_s dt)
        (val r.capex_s dt) := rfl

theorem build_rows_eq (c s : String) (inc bal cf : DataFrame) (fl : String) :
    build_rows_from_dfs c s inc bal cf fl =
      applyGrowth ((aligned_periods inc bal cf).map
        (buildRow c s fl (resolve_all inc bal cf))) := rfl

theorem build_rows_getElem (c s : String) (inc bal cf : DataFrame) (fl : String) (i : Nat) :
    (build_rows_from_dfs c s inc bal cf fl)[i]? =
      ((aligned_periods inc bal cf)[i]?).map
        (fun dt =>
          growthAt ((aligned_periods inc bal cf).map (buildRow c s fl (resolve_all inc bal cf)))
            i (buildRow c s fl (resolve_all inc bal cf) dt)) := by
  rw [build_rows_eq, applyGrowth_getElem, List.getElem?_map]
  cases (aligned_periods inc bal cf)[i]? <;> rfl

/-! ## The aligned period sequence -/

theorem mem_aligned (inc bal cf : DataFrame) (dt : Date) :
    dt ∈ aligned_periods inc bal cf ↔
      ∃ s ∈ (resolve_all inc bal cf).allSeries, dt ∈ colsOf s := by
  rw [aligned_periods, sortDesc]
  rw [List.mem_insertionSort, List.mem_dedup, List.mem_flatMap]

theorem nodup_aligned (inc bal cf : DataFrame) : (aligned_periods inc bal cf).Nodup := by
  rw [aligned_periods, sortDesc]
  exact (List.perm_insertionSort _ _).nodup_iff.mpr (List.nodup_dedup _)

theorem sorted_aligned (inc bal cf : DataFrame) :
    (aligned_periods inc bal cf).Pairwise (fun a b => Date.key b ≤ Date.key a) :=
  List.sorted_insertionSort _ _

theorem Date.key_inj {a b : Date} (ha : a.valid) (hb : b.valid) (h : a.key = b.key) :
    a = b := by
  obtain ⟨ha1, ha2, ha3, ha4, ha5, ha6⟩ := ha
  obtain ⟨hb1, hb2, hb3, hb4, hb5, hb6⟩ := hb
  cases a
  cases b
  simp only [Date.key] at h ha1 ha2 ha3 ha4 ha5 ha6 hb1 hb2 hb3 hb4 hb5 hb6
  simp only [Date.mk.injEq]
  omega

theorem strict_sorted_aligned (inc bal cf : DataFrame)
    (hvalid : ∀ dt ∈ aligned_periods inc bal cf, dt.valid) :
    (aligned_periods inc bal cf).Pairwise (fun a b => Date.key b < Date.key a) := by
  have h1 := sorted_aligned inc bal cf
  have h2 : (aligned_periods inc bal cf).Pairwise (fun a b => a ≠ b) := nodup_aligned inc bal cf
  have h3 := h1.and h2
  refine h3.imp_of_mem ?_
  intro a b hma hmb hab
  rcases hab with ⟨hle, hne⟩
  rcases Nat.lt_or_ge (Date.key b) (Date.key a) with hlt | hge
  · exact hlt
  · exact absurd (Date.key_inj (hvalid a hma) (hvalid b hmb) (by omega)) hne

/-! ## Claim theorems -/

/-- C8: the decimal-coercion primitive returns null for the `None`, `""` and
`"None"` sentinels and for strings that fail decimal parsing, and never
raises (it is a total function of the model); safe division never raises,
returns null whenever either operand is null or the denominator is zero, and
otherwise returns the exact quotient (`q * b = a`). -/
theorem C8_coercion_and_safe_division :
    _to_dec_safe Raw.none = Option.none ∧
    _to_dec_safe (Raw.str "") = Option.none ∧
    _to_dec_safe (Raw.str "None") = Option.none ∧
    (∀ s : String, parseDecimalStr s = Option.none → _to_dec_safe (Raw.str s) = Option.none) ∧
    (∀ b : Option ℚ, _div Option.none b = Option.none) ∧
    (∀ a : Option ℚ, _div a Option.none = Option.none) ∧
    (∀ a : Option ℚ, _div a (some 0) = Option.none) ∧
    (∀ a b : ℚ, b ≠ 0 → _div (some a) (some b) = some (a / b)) ∧
    (∀ a b q : ℚ, _div (some a) (some b) = some q → q * b = a) := by
  refine ⟨rfl, rfl, rfl, ?_, ?_, ?_, ?_, ?_, ?_⟩
  · intro s h
    rw [_to_dec_safe]
    by_cases hs : s = "" ∨ s = "None"
    · rw [if_pos hs]
    · rw [if_neg hs]
      exact h
  · intro b
    cases b <;> rfl
  · intro a
    cases a <;> rfl
  · intro a
    cases a with
    | none => rfl
    | some x =>
      rw [_div, if_pos rfl]
  · intro a b hb
    rw [_div, if_neg hb, qDiv_eq]
  · intro a b q h
    by_cases hb : b = 0
    · rw [_div, if_pos hb] at h
      cases h
    · rw [_div, if_neg hb, qDiv_eq] at h
      have hq : q = a / b := by
        injection h with h'
        exact h'.symm
      rw [hq]
      exact div_mul_cancel₀ a hb

/-- C1: in every built row, each divided/percentage derived metric is null
iff its numerator input is null, its denominator is null, or its denominator
is zero; a well-defined quotient is never silently replaced by zero (the
value is `some …`, fixed by the iff), and the division primitive is total so
no division error can escape. -/
theorem C1_derived_null_iff (company symbol freq_label : String)
    (inc bal cf : DataFrame) (i : Nat) (dt : Date) (row : Row)
    (hdt : (aligned_periods inc bal cf)[i]? = some dt)
    (hrow : (build_rows_from_dfs company symbol inc bal cf freq_label)[i]? = some row) :
    (row.metrics.grossMargin_pct = Option.none ↔
      val (resolve_all inc bal cf).gp_s dt = Option.none ∨
      val (resolve_all inc bal cf).rev_s dt = Option.none ∨
      val (resolve_all inc bal cf).rev_s dt = some 0) ∧
    (row.metrics.netMargin_pct = Option.none ↔
      val (resolve_all inc bal cf).ni_s dt = Option.none ∨
      val (resolve_all inc bal cf).rev_s dt = Option.none ∨
      val (resolve_all inc bal cf).rev_s dt = some 0) ∧
    (row.metrics.debtToEquity = Option.none ↔
      val (resolve_all inc bal cf).tliab_s dt = Option.none ∨
      val (resolve_all inc bal cf).equity_s dt = Option.none ∨
      val (resolve_all inc bal cf).equity_s dt = some 0) ∧
    (row.metrics.currentRatio = Option.none ↔
      val (resolve_all inc bal cf).ca_s dt = Option.none ∨
      val (resolve_all inc bal cf).cl_s dt = Option.none ∨
      val (resolve_all inc bal cf).cl_s dt = some 0) ∧
    (row.metrics.cashRatio = Option.none ↔
      val (resolve_all inc bal cf).cash_s dt = Option.none ∨
      val (resolve_all inc bal cf).cl_s dt = Option.none ∨
      val (resolve_all inc bal cf).cl_s dt = some 0) ∧
    (row.metrics.rdIntensity_pct = Option.none ↔
      val (resolve_all inc bal cf).rd_s dt = Option.none ∨
      val (resolve_all inc bal cf).rev_s dt = Option.none ∨
      val (resolve_all inc bal cf).rev_s dt = some 0) ∧
    (row.metrics.capexToRevenue_pct = Option.none ↔
      val (resolve_all inc bal cf).capex_s dt = Option.none ∨
      val (resolve_all inc bal cf).rev_s dt = Option.none ∨
      val (resolve_all inc bal cf).rev_s dt = some 0) := by
  have hg := build_rows_getElem company symbol inc bal cf freq_label i
  rw [hdt, hrow] at hg
  simp only [Option.map_some'] at hg
  injection hg with hg
  obtain ⟨-, -, -, hgm, hnm, hde, hcr, hcashr, hrd, hcap, -, -, -⟩ :=
    growthAt_preserves
      ((aligned_periods inc bal cf).map (buildRow company symbol freq_label (resolve_all inc bal cf)))
      i (buildRow company symbol freq_label (resolve_all inc bal cf) dt)
  rw [hg, hgm, hnm, hde, hcr, hcashr, hrd, hcap, buildRow_metrics,
    metricsOf_grossMargin, metricsOf_netMargin, metricsOf_debtToEquity,
    metricsOf_currentRatio, metricsOf_cashRatio, metricsOf_rdIntensity,
    metricsOf_capexToRevenue]
  simp [_fmt_eq_none, _pct_eq_none, _div_eq_none]

/-- C2: in every built row, `totalDebt` is null iff both debt components are
null; otherwise it is the (rounded) sum with a null component read as zero. -/
theorem C2_totalDebt (company symbol freq_label : String)
    (inc bal cf : DataFrame) (i : Nat) (dt : Date) (row : Row)
    (hdt : (aligned_periods inc bal cf)[i]? = some dt)
    (hrow : (build_rows_from_dfs company symbol inc bal cf freq_label)[i]? = some row) :
    (row.metrics.totalDebt = Option.none ↔
      val (resolve_all inc bal cf).sdebt_s dt = Option.none ∧
      val (resolve_all inc bal cf).ldebt_s dt = Option.none) ∧
    (val (resolve_all inc bal cf).sdebt_s dt ≠ Option.none ∨
        val (resolve_all inc bal cf).ldebt_s dt ≠ Option.none →
      row.metrics.totalDebt =
        some (roundTo 2 ((val (resolve_all inc bal cf).sdebt_s dt).getD 0 +
          (val (resolve_all inc bal cf).ldebt_s dt).getD 0))) := by
  have hg := build_rows_getElem company symbol inc bal cf freq_label i
  rw [hdt, hrow] at hg
  simp only [Option.map_some'] at hg
  injection hg with hg
  obtain ⟨-, -, -, -, -, -, -, -, -, -, -, htd, -⟩ :=
    growthAt_preserves
      ((aligned_periods inc bal cf).map (buildRow company symbol freq_label (resolve_all inc bal cf)))
      i (buildRow company symbol freq_label (resolve_all inc bal cf) dt)
  rw [hg, htd, buildRow_metrics, metricsOf_totalDebt]
  rw [← qAdd_eq]
  cases val (resolve_all inc bal cf).sdebt_s dt <;>
    cases val (resolve_all inc bal cf).ldebt_s dt <;>
      simp [_fmt]

/-- C3: in every built row, `freeCashFlow` equals operating cash flow minus
capital expenditures (rounded for presentation) exactly when both inputs are
non-null, and is null when either input is null. -/
theorem C3_freeCashFlow (company symbol freq_label : String)
    (inc bal cf : DataFrame) (i : Nat) (dt : Date) (row : Row)
    (hdt : (aligned_periods inc bal cf)[i]? = some dt)
    (hrow : (build_rows_from_dfs company symbol inc bal cf freq_label)[i]? = some row) :
    (row.metrics.freeCashFlow = Option.none ↔
      val (resolve_all inc bal cf).ocf_s dt = Option.none ∨
      val (resolve_all inc bal cf).capex_s dt = Option.none) ∧
    (∀ o c : ℚ, val (resolve_all inc bal cf).ocf_s dt = some o →
      val (resolve_all inc bal cf).capex_s dt = some c →
      row.metrics.freeCashFlow = some (roundTo 2 (o - c))) := by
  have hg := build_rows_getElem company symbol inc bal cf freq_label i
  rw [hdt, hrow] at hg
  simp only [Option.map_some'] at hg
  injection hg with hg
  obtain ⟨-, -, -, -, -, -, -, -, -, -, hfcf, -, -⟩ :=
    growthAt_preserves
      ((aligned_periods inc bal cf).map (buildRow company symbol freq_label (resolve_all inc bal cf)))
      i (buildRow company symbol freq_label (resolve_all inc bal cf) dt)
  rw [hg, hfcf, buildRow_metrics, metricsOf_freeCashFlow]
  cases val (resolve_all inc bal cf).ocf_s dt <;>
    cases val (resolve_all inc bal cf).capex_s dt <;>
      simp [_fmt, qSub_eq]

theorem flags_mem (b1 b2 b3 : Bool) :
    ("current_ratio_lt_1" ∈
        (if b1 then ["current_ratio_lt_1"] else []) ++
          (if b2 then ["negative_fcf"] else []) ++
          (if b3 then ["high_debt_to_equity"] else []) ↔ b1 = true) ∧
    ("negative_fcf" ∈
        (if b1 then ["current_ratio_lt_1"] else []) ++
          (if b2 then ["negative_fcf"] else []) ++
          (if b3 then ["high_debt_to_equity"] else []) ↔ b2 = true) ∧
    ("high_debt_to_equity" ∈
        (if b1 then ["current_ratio_lt_1"] else []) ++
          (if b2 then ["negative_fcf"] else []) ++
          (if b3 then ["high_debt_to_equity"] else []) ↔ b3 = true) ∧
    (∀ fl ∈
        (if b1 then ["current_ratio_lt_1"] else []) ++
          (if b2 then ["negative_fcf"] else []) ++
          (if b3 then ["high_debt_to_equity"] else []),
      fl = "current_ratio_lt_1" ∨ fl = "negative_fcf" ∨ fl = "high_debt_to_equity") := by
  cases b1 <;> cases b2 <;> cases b3 <;>
    refine ⟨by decide, by decide, by decide, ?_⟩ <;> (intro fl hfl; simp at hfl; try tauto)

/-- C7: in every built row, the distress flags are derived from the
already-rounded metric fields with strict comparisons — `current_ratio_lt_1`
iff the (rounded) current ratio is non-null and `< 1`, `negative_fcf` iff
the (rounded) free cash flow is non-null and `< 0`, `high_debt_to_equity`
iff the (rounded) debt-to-equity is non-null and `> 2` — and no other flag
ever appears. -/
theorem C7_distress_flags (company symbol freq_label : String)
    (inc bal cf : DataFrame) (i : Nat) (row : Row)
    (hrow : (build_rows_from_dfs company symbol inc bal cf freq_label)[i]? = some row) :
    ("current_ratio_lt_1" ∈ row.metrics.distressFlags ↔
      ∃ v, row.metrics.currentRatio = some v ∧ v < 1) ∧
    ("negative_fcf" ∈ row.metrics.distressFlags ↔
      ∃ v, row.metrics.freeCashFlow = some v ∧ v < 0) ∧
    ("high_debt_to_equity" ∈ row.metrics.distressFlags ↔
      ∃ v, row.metrics.debtToEquity = some v ∧ 2 < v) ∧
    (∀ fl ∈ row.metrics.distressFlags,
      fl = "current_ratio_lt_1" ∨ fl = "negative_fcf" ∨ fl = "high_debt_to_equity") := by
  have hg := build_rows_getElem company symbol inc bal cf freq_label i
  rw [hrow] at hg
  cases hdt : (aligned_periods inc bal cf)[i]? with
  | none =>
    rw [hdt] at hg
    cases hg
  | some dt =>
    rw [hdt] at hg
    simp only [Option.map_some'] at hg
    injection hg with hg
    obtain ⟨-, -, -, -, -, hde, hcr, -, -, -, hfcf, -, hflags⟩ :=
      growthAt_preserves
        ((aligned_periods inc bal cf).map (buildRow company symbol freq_label (resolve_all inc bal cf)))
        i (buildRow company symbol freq_label (resolve_all inc bal cf) dt)
    rw [hg, hflags, hcr, hfcf, hde, buildRow_metrics, metricsOf_distressFlags,
      metricsOf_currentRatio, metricsOf_freeCashFlow, metricsOf_debtToEquity]
    rw [← boolLt_iff, ← boolLt_iff, ← boolGt_iff]
    exact flags_mem _ _ _

/-- C4: for one company and frequency the builder iterates exactly the
deduplicated union of the period labels of all resolved series, without
duplicates, sorted strictly descending (on the pandas-Timestamp domain);
one row is built per period in that order, and with no resolvable series
the sequence is empty and zero rows are produced (no error — the model is
total). -/
theorem C4_period_alignment (company symbol freq_label : String) (inc bal cf : DataFrame) :
    (∀ dt : Date, dt ∈ aligned_periods inc bal cf ↔
      ∃ s ∈ (resolve_all inc bal cf).allSeries, dt ∈ colsOf s) ∧
    (aligned_periods inc bal cf).Nodup ∧
    ((∀ dt ∈ aligned_periods inc bal cf, dt.valid) →
      (aligned_periods inc bal cf).Pairwise (fun a b => Date.key b < Date.key a)) ∧
    (build_rows_from_dfs company symbol inc bal cf freq_label).length =
      (aligned_periods inc bal cf).length ∧
    (∀ (i : Nat) (dt : Date), (aligned_periods inc bal cf)[i]? = some dt →
      ((build_rows_from_dfs company symbol inc bal cf freq_label)[i]?).map Row.fiscalDate =
        some dt.iso) ∧
    ((∀ s ∈ (resolve_all inc bal cf).allSeries, s = Option.none) →
      build_rows_from_dfs company symbol inc bal cf freq_label = []) := by
  refine ⟨mem_aligned inc bal cf, nodup_aligned inc bal cf,
    strict_sorted_aligned inc bal cf, ?_, ?_, ?_⟩
  · rw [build_rows_eq, applyGrowth_length, List.length_map]
  · intro i dt hdt
    rw [build_rows_getElem, hdt]
    simp only [Option.map_some']
    rw [(growthAt_preserves _ i _).1, buildRow_fiscalDate]
  · intro hall
    have h0 : (resolve_all inc bal cf).allSeries.flatMap colsOf = [] := by
      rw [List.flatMap_eq_nil_iff]
      intro s hs
      rw [hall s hs]
      rfl
    have h1 : aligned_periods inc bal cf = [] := by
      rw [aligned_periods, h0]
      rfl
    rw [build_rows_eq, h1]
    rfl

theorem matchQoQ_none (cv pv : Option ℚ) :
    (match qoqVal cv pv with
     | some g => some g
     | Option.none => (Option.none : Option ℚ)) = qoqVal cv pv := by
  cases qoqVal cv pv <;> rfl

/-- C5: in the descending row sequence, the QoQ growth key of the row at
index `i` (for revenue and for net income) is present iff a row at `i + 1`
exists, both stored values are numeric, and the previous one is non-zero;
when present it equals `(curr - prev) / prev * 100` rounded to two digits;
otherwise the key stays absent (`none` in the model — the loop only ever
assigns a numeric value, never null). -/
theorem C5_qoq_growth (company symbol freq_label : String) (inc bal cf : DataFrame)
    (i : Nat) (curr : Row)
    (hcurr : (build_rows_from_dfs company symbol inc bal cf freq_label)[i]? = some curr) :
    ((∃ g, curr.metrics.totalRevenue_QoQ_growth_pct = some g) ↔
      (∃ prev cv pv,
        (build_rows_from_dfs company symbol inc bal cf freq_label)[i + 1]? = some prev ∧
        curr.metrics.totalRevenue = some cv ∧ prev.metrics.totalRevenue = some pv ∧ pv ≠ 0)) ∧
    (∀ prev cv pv,
      (build_rows_from_dfs company symbol inc bal cf freq_label)[i + 1]? = some prev →
      curr.metrics.totalRevenue = some cv → prev.metrics.totalRevenue = some pv → pv ≠ 0 →
      curr.metrics.totalRevenue_QoQ_growth_pct = some (roundTo 2 ((cv - pv) / pv * 100))) ∧
    ((∃ g, curr.metrics.netIncome_QoQ_growth_pct = some g) ↔
      (∃ prev cv pv,
        (build_rows_from_dfs company symbol inc bal cf freq_label)[i + 1]? = some prev ∧
        curr.metrics.netIncome = some cv ∧ prev.metrics.netIncome = some pv ∧ pv ≠ 0)) ∧
    (∀ prev cv pv,
      (build_rows_from_dfs company symbol inc bal cf freq_label)[i + 1]? = some prev →
      curr.metrics.netIncome = some cv → prev.metrics.netIncome = some pv → pv ≠ 0 →
      curr.metrics.netIncome_QoQ_growth_pct = some (roundTo 2 ((cv - pv) / pv * 100))) := by
  have hg := build_rows_getElem company symbol inc bal cf freq_label i
  rw [hcurr] at hg
  cases hdt : (aligned_periods inc bal cf)[i]? with
  | none =>
    rw [hdt] at hg
    simp at hg
  | some dt =>
    rw [hdt] at hg
    simp only [Option.map_some'] at hg
    injection hg with hg
    cases hdt2 : (aligned_periods inc bal cf)[i + 1]? with
    | none =>
      have hbase : ((aligned_periods inc bal cf).map
          (buildRow company symbol freq_label (resolve_all inc bal cf)))[i + 1]? =
          Option.none := by
        rw [List.getElem?_map, hdt2]
        rfl
      have hrows2 : (build_rows_from_dfs company symbol inc bal cf freq_label)[i + 1]? =
          Option.none := by
        rw [build_rows_getElem, hdt2]
        rfl
      obtain ⟨hq1, hq2⟩ := growthAt_qoq_of_none _ i
        (buildRow company symbol freq_label (resolve_all inc bal cf) dt) hbase
      have ht : curr.metrics.totalRevenue_QoQ_growth_pct = Option.none := by
        rw [hg, hq1, buildRow_metrics]
        rfl
      have hn : curr.metrics.netIncome_QoQ_growth_pct = Option.none := by
        rw [hg, hq2, buildRow_metrics]
        rfl
      refine ⟨?_, ?_, ?_, ?_⟩
      · rw [ht]
        simp [hrows2]
      · intro prev cv pv hp
        rw [hrows2] at hp
        cases hp
      · rw [hn]
        simp [hrows2]
      · intro prev cv pv hp
        rw [hrows2] at hp
        cases hp
    | some dt' =>
      have hbase : ((aligned_periods inc bal cf).map
          (buildRow company symbol freq_label (resolve_all inc bal cf)))[i + 1]? =
          some (buildRow company symbol freq_label (resolve_all inc bal cf) dt') := by
        rw [List.getElem?_map, hdt2]
        rfl
      have hrows2 : (build_rows_from_dfs company symbol inc bal cf freq_label)[i + 1]? =
          some (growthAt
            ((aligned_periods inc bal cf).map
              (buildRow company symbol freq_label (resolve_all inc bal cf)))
            (i + 1) (buildRow company symbol freq_label (resolve_all inc bal cf) dt')) := by
        rw [build_rows_getElem, hdt2]
        rfl
      obtain ⟨hq1, hq2⟩ := growthAt_qoq_of_some _ i
        (buildRow company symbol freq_label (resolve_all inc bal cf) dt) hbase
      have h0t : (buildRow company symbol freq_label
          (resolve_all inc bal cf) dt).metrics.totalRevenue_QoQ_growth_pct = Option.none := by
        rw [buildRow_metrics]
        rfl
      have h0n : (buildRow company symbol freq_label
          (resolve_all inc bal cf) dt).metrics.netIncome_QoQ_growth_pct = Option.none := by
        rw [buildRow_metrics]
        rfl
      rw [h0t] at hq1
      rw [h0n] at hq2
      have htQ : curr.metrics.totalRevenue_QoQ_growth_pct =
          qoqVal (buildRow company symbol freq_label (resolve_all inc bal cf) dt).metrics.totalRevenue
            (buildRow company symbol freq_label (resolve_all inc bal cf) dt').metrics.totalRevenue := by
        rw [hg, hq1, matchQoQ_none]
      have hnQ : curr.metrics.netIncome_QoQ_growth_pct =
          qoqVal (buildRow company symbol freq_label (resolve_all inc bal cf) dt).metrics.netIncome
            (buildRow company symbol freq_label (resolve_all inc bal cf) dt').metrics.netIncome := by
        rw [hg, hq2, matchQoQ_none]
      have hcurrTR : curr.metrics.totalRevenue =
          (buildRow company symbol freq_label (resolve_all inc bal cf) dt).metrics.totalRevenue := by
        rw [hg]
        exact (growthAt_preserves _ i _).2.1
      have hcurrNI : curr.metrics.netIncome =
          (buildRow company symbol freq_label (resolve_all inc bal cf) dt).metrics.netIncome := by
        rw [hg]
        exact (growthAt_preserves _ i _).2.2.1
      have hprevTR : (growthAt
            ((aligned_periods inc bal cf).map
              (buildRow company symbol freq_label (resolve_all inc bal cf)))
            (i + 1)
            (buildRow company symbol freq_label (resolve_all inc bal cf) dt')).metrics.totalRevenue =
          (buildRow company symbol freq_label (resolve_all inc bal cf) dt').metrics.totalRevenue :=
        (growthAt_preserves _ (i + 1) _).2.1
      have hprevNI : (growthAt
            ((aligned_periods inc bal cf).map
              (buildRow company symbol freq_label (resolve_all inc bal cf)))
            (i + 1)
            (buildRow company symbol freq_label (resolve_all inc bal cf) dt')).metrics.netIncome =
          (buildRow company symbol freq_label (resolve_all inc bal cf) dt').metrics.netIncome :=
        (growthAt_preserves _ (i + 1) _).2.2.1
      refine ⟨?_, ?_, ?_, ?_⟩
      · rw [htQ]
        constructor
        · intro h
          obtain ⟨c, p, hc, hp, hpne⟩ := qoqVal_isSome_iff.mp h
          exact ⟨_, c, p, hrows2, by rw [hcurrTR]; exact hc, by rw [hprevTR]; exact hp, hpne⟩
        · rintro ⟨prev, cv, pv, hp, hcv, hpv, hpne⟩
          rw [hrows2] at hp
          injection hp with hp
          rw [← hp, hprevTR] at hpv
          rw [hcurrTR] at hcv
          exact qoqVal_isSome_iff.mpr ⟨cv, pv, hcv, hpv, hpne⟩
      · intro prev cv pv hp hcv hpv hpne
        rw [hrows2] at hp
        injection hp with hp
        rw [← hp, hprevTR] at hpv
        rw [hcurrTR] at hcv
        rw [htQ, hcv, hpv]
        exact qoqVal_eq_some hpne
      · rw [hnQ]
        constructor
        · intro h
          obtain ⟨c, p, hc, hp, hpne⟩ := qoqVal_isSome_iff.mp h
          exact ⟨_, c, p, hrows2, by rw [hcurrNI]; exact hc, by rw [hprevNI]; exact hp, hpne⟩
        · rintro ⟨prev, cv, pv, hp, hcv, hpv, hpne⟩
          rw [hrows2] at hp
          injection hp with hp
          rw [← hp, hprevNI] at hpv
          rw [hcurrNI] at hcv
          exact qoqVal_isSome_iff.mpr ⟨cv, pv, hcv, hpv, hpne⟩
      · intro prev cv pv hp hcv hpv hpne
        rw [hrows2] at hp
        injection hp with hp
        rw [← hp, hprevNI] at hpv
        rw [hcurrNI] at hcv
        rw [hnQ, hcv, hpv]
        exact qoqVal_eq_some hpne

/-! ## Orchestrator decomposition -/

/-- The rows one company contributes to the aggregate: its fetched records,
or nothing when its fetch/processing raised. -/
def companyRecords (fetch : String → Except String Tables) (p : String × String) : List Row :=
  match fetch_yahoo_financials fetch p.1 p.2 with
  | Except.ok recs => recs
  | Except.error _ => []

/-- The warning lines one company's iteration prints. -/
def companyWarns (fetch : String → Except String Tables) (p : String × String) : List String :=
  match fetch_yahoo_financials fetch p.1 p.2 with
  | Except.ok _ => if p.2 = "" then ["[warn] No symbol for " ++ p.1] else []
  | Except.error e => ["[warn] " ++ p.1 ++ " (" ++ p.2 ++ ") failed: " ++ e]

theorem main_step_eq (fetch : String → Except String Tables)
    (acc : List Row × List String) (p : String × String) :
    main_step fetch acc p =
      (acc.1 ++ companyRecords fetch p, acc.2 ++ companyWarns fetch p) := by
  rw [main_step, companyRecords, companyWarns]
  cases hf : fetch_yahoo_financials fetch p.1 p.2 with
  | ok recs => by_cases hp : p.2 = "" <;> simp [hp]
  | error e => simp

theorem foldl_main_step (fetch : String → Except String Tables)
    (companies : List (String × String)) :
    ∀ acc : List Row × List String,
      companies.foldl (main_step fetch) acc =
        (acc.1 ++ (companies.map (companyRecords fetch)).flatten,
         acc.2 ++ (companies.map (companyWarns fetch)).flatten) := by
  induction companies with
  | nil => intro acc; simp
  | cons p t ih =>
    intro acc
    rw [List.foldl_cons, main_step_eq, ih]
    simp

theorem run_main_eq (fetch : String → Except String Tables)
    (companies : List (String × String)) :
    run_main fetch companies =
      ((companies.map (companyRecords fetch)).flatten,
       (companies.map (companyWarns fetch)).flatten) := by
  rw [run_main, foldl_main_step]
  simp

/-- C9: the run is a per-company fold in which every company's contribution
is isolated — the aggregate handed to the writer is the concatenation of
per-company record lists; a company with an empty symbol contributes zero
rows and leaves a warning; a company whose fetch raises contributes zero
rows and leaves a warning; no per-company failure prevents the aggregate
(including all other companies' rows) from being produced — `run_main` is
total and always returns the partial aggregate. -/
theorem C9_per_company_isolation (fetch : String → Except String Tables)
    (companies : List (String × String)) :
    (run_main fetch companies).1 = (companies.map (companyRecords fetch)).flatten ∧
    (∀ company : String, fetch_yahoo_financials fetch company "" = Except.ok []) ∧
    (∀ p ∈ companies, p.2 = "" →
      companyRecords fetch p = [] ∧
        "[warn] No symbol for " ++ p.1 ∈ (run_main fetch companies).2) ∧
    (∀ p ∈ companies, ∀ e : String, p.2 ≠ "" → fetch p.2 = Except.error e →
      companyRecords fetch p = [] ∧
        "[warn] " ++ p.1 ++ " (" ++ p.2 ++ ") failed: " ++ e ∈ (run_main fetch companies).2) := by
  refine ⟨?_, ?_, ?_, ?_⟩
  · rw [run_main_eq]
  · intro company
    rw [fetch_yahoo_financials, if_pos rfl]
  · intro p hp hsym
    have hfet : fetch_yahoo_financials fetch p.1 p.2 = Except.ok [] := by
      rw [fetch_yahoo_financials, if_pos hsym]
    constructor
    · rw [companyRecords, hfet]
    · rw [run_main_eq]
      have hw : companyWarns fetch p = ["[warn] No symbol for " ++ p.1] := by
        rw [companyWarns, hfet, if_pos hsym]
      rw [List.mem_flatten]
      exact ⟨companyWarns fetch p, List.mem_map_of_mem _ hp, by rw [hw]; simp⟩
  · intro p hp e hsym herr
    have hfet : fetch_yahoo_financials fetch p.1 p.2 = Except.error e := by
      rw [fetch_yahoo_financials, if_neg hsym, herr]
    constructor
    · rw [companyRecords, hfet]
    · rw [run_main_eq]
      have hw : companyWarns fetch p =
          ["[warn] " ++ p.1 ++ " (" ++ p.2 ++ ") failed: " ++ e] := by
        rw [companyWarns, hfet]
      rw [List.mem_flatten]
      exact ⟨companyWarns fetch p, List.mem_map_of_mem _ hp, by rw [hw]; simp⟩

/-- The two-period revenue table exhibiting the rounding effect for C10:
the older revenue is `1.004`, stored rounded to `1.00`. -/
def C10_inc : DataFrame :=
  [("Total Revenue",
    [(⟨2024, 6, 30⟩, some (mkRat 2 1)), (⟨2024, 3, 31⟩, some (mkRat 1004 1000))])]

/-- C10: growth is computed from the already-rounded stored metric values,
not the raw decimals: with raw revenues `2` (current) and `1.004`
(previous), the previous value is stored rounded to `1`, the stored QoQ
growth is `(2 - 1) / 1 * 100 = 100`, while the growth computed on the
unrounded inputs, `(2 - 1.004) / 1.004 * 100`, is not `100`. -/
theorem C10_growth_from_rounded_values :
    ((build_rows_from_dfs "c" "s" C10_inc [] [] "Quarter")[1]?.map
        (fun r => r.metrics.totalRevenue)) = some (some 1) ∧
    ((build_rows_from_dfs "c" "s" C10_inc [] [] "Quarter")[0]?.map
        (fun r => r.metrics.totalRevenue_QoQ_growth_pct)) = some (some 100) ∧
    (2 - (1004 / 1000 : ℚ)) / (1004 / 1000) * 100 ≠ 100 := by
  refine ⟨by decide, by decide, ?_⟩
  intro h
  rw [div_mul_eq_mul_div, div_eq_iff (by norm_num)] at h
  norm_num at h

/-- C6: YoY growth via the string prior-year key.  On the pandas-Timestamp
domain (all aligned periods `Date.valid`), the row at index `i` with period
`dt` gets a YoY growth value (for revenue and for net income) iff the
period `(dt.y - 1, dt.m, dt.d)` — same month-day, previous year — occurs in
the same company+frequency sequence and both stored values are numeric with
the prior one non-zero; the value is `(curr - prev) / prev * 100` rounded
to two digits.  A fiscal-period string whose year prefix does not parse
(`yoyKey … = none`, the bare `except` path) leaves the YoY keys of that row
untouched and raises nothing — the growth pass is a total function. -/
theorem C6_yoy_growth (company symbol freq_label : String) (inc bal cf : DataFrame)
    (i : Nat) (dt : Date) (curr : Row)
    (hvalid : ∀ d ∈ aligned_periods inc bal cf, d.valid)
    (hdt : (aligned_periods inc bal cf)[i]? = some dt)
    (hcurr : (build_rows_from_dfs company symbol inc bal cf freq_label)[i]? = some curr) :
    ((∃ g, curr.metrics.totalRevenue_YoY_growth_pct = some g) ↔
      (∃ (j : Nat) (prev : Row) (cv pv : ℚ),
        (aligned_periods inc bal cf)[j]? = some (⟨dt.y - 1, dt.m, dt.d⟩ : Date) ∧
        (build_rows_from_dfs company symbol inc bal cf freq_label)[j]? = some prev ∧
        curr.metrics.totalRevenue = some cv ∧ prev.metrics.totalRevenue = some pv ∧ pv ≠ 0)) ∧
    (∀ (j : Nat) (prev : Row) (cv pv : ℚ),
      (aligned_periods inc bal cf)[j]? = some (⟨dt.y - 1, dt.m, dt.d⟩ : Date) →
      (build_rows_from_dfs company symbol inc bal cf freq_label)[j]? = some prev →
      curr.metrics.totalRevenue = some cv → prev.metrics.totalRevenue = some pv → pv ≠ 0 →
      curr.metrics.totalRevenue_YoY_growth_pct = some (roundTo 2 ((cv - pv) / pv * 100))) ∧
    ((∃ g, curr.metrics.netIncome_YoY_growth_pct = some g) ↔
      (∃ (j : Nat) (prev : Row) (cv pv : ℚ),
        (aligned_periods inc bal cf)[j]? = some (⟨dt.y - 1, dt.m, dt.d⟩ : Date) ∧
        (build_rows_from_dfs company symbol inc bal cf freq_label)[j]? = some prev ∧
        curr.metrics.netIncome = some cv ∧ prev.metrics.netIncome = some pv ∧ pv ≠ 0)) ∧
    (∀ (j : Nat) (prev : Row) (cv pv : ℚ),
      (aligned_periods inc bal cf)[j]? = some (⟨dt.y - 1, dt.m, dt.d⟩ : Date) →
      (build_rows_from_dfs company symbol inc bal cf freq_label)[j]? = some prev →
      curr.metrics.netIncome = some cv → prev.metrics.netIncome = some pv → pv ≠ 0 →
      curr.metrics.netIncome_YoY_growth_pct = some (roundTo 2 ((cv - pv) / pv * 100))) ∧
    (∀ (rows2 : List Row) (k : Nat) (r : Row), yoyKey r.fiscalDate = Option.none →
      (growthAt rows2 k r).metrics.totalRevenue_YoY_growth_pct =
          r.metrics.totalRevenue_YoY_growth_pct ∧
        (growthAt rows2 k r).metrics.netIncome_YoY_growth_pct =
          r.metrics.netIncome_YoY_growth_pct) := by
  have hg := build_rows_getElem company symbol inc bal cf freq_label i
  rw [hcurr, hdt] at hg
  simp only [Option.map_some'] at hg
  injection hg with hg
  have hdtvalid : dt.valid := hvalid dt (List.getElem?_mem hdt)
  have hy1 : 1001 ≤ dt.y := by
    obtain ⟨h1, -, -, -, -, -⟩ := hdtvalid
    omega
  have hy2 : dt.y ≤ 9999 := by
    obtain ⟨-, h2, -, -, -, -⟩ := hdtvalid
    omega
  have hkey : yoyKey ((buildRow company symbol freq_label (resolve_all inc bal cf) dt).fiscalDate) =
      some (Date.iso ⟨dt.y - 1, dt.m, dt.d⟩) := by
    rw [buildRow_fiscalDate]
    exact yoyKey_iso hy1 hy2
  have hpbounds : (⟨dt.y - 1, dt.m, dt.d⟩ : Date).isoBounds := by
    obtain ⟨h1, h2, h3, h4, h5, h6⟩ := hdtvalid
    show dt.y - 1 ≤ 9999 ∧ dt.m ≤ 99 ∧ dt.d ≤ 99
    omega
  have hget := dictGet_map_iso (aligned_periods inc bal cf)
    (buildRow company symbol freq_label (resolve_all inc bal cf))
    (fun dtx => buildRow_fiscalDate company symbol freq_label (resolve_all inc bal cf) dtx)
    (fun d hd => Date.valid_isoBounds (hvalid d hd)) ⟨dt.y - 1, dt.m, dt.d⟩ hpbounds
  have hcurrTR : curr.metrics.totalRevenue =
      (buildRow company symbol freq_label (resolve_all inc bal cf) dt).metrics.totalRevenue := by
    rw [hg]
    exact (growthAt_preserves _ i _).2.1
  have hcurrNI : curr.metrics.netIncome =
      (buildRow company symbol freq_label (resolve_all inc bal cf) dt).metrics.netIncome := by
    rw [hg]
    exact (growthAt_preserves _ i _).2.2.1
  by_cases hmem : (⟨dt.y - 1, dt.m, dt.d⟩ : Date) ∈ aligned_periods inc bal cf
  · rw [if_pos hmem] at hget
    obtain ⟨htY, hnY⟩ := growthAt_yoy_of_found
      ((aligned_periods inc bal cf).map
        (buildRow company symbol freq_label (resolve_all inc bal cf)))
      i (buildRow company symbol freq_label (resolve_all inc bal cf) dt) hkey hget
    have h0t : (buildRow company symbol freq_label
        (resolve_all inc bal cf) dt).metrics.totalRevenue_YoY_growth_pct = Option.none := by
      rw [buildRow_metrics]
      rfl
    have h0n : (buildRow company symbol freq_label
        (resolve_all inc bal cf) dt).metrics.netIncome_YoY_growth_pct = Option.none := by
      rw [buildRow_metrics]
      rfl
    rw [h0t] at htY
    rw [h0n] at hnY
    have htQ : curr.metrics.totalRevenue_YoY_growth_pct =
        qoqVal (buildRow company symbol freq_label (resolve_all inc bal cf) dt).metrics.totalRevenue
          (buildRow company symbol freq_label
            (resolve_all inc bal cf) ⟨dt.y - 1, dt.m, dt.d⟩).metrics.totalRevenue := by
      rw [hg, htY, matchQoQ_none]
    have hnQ : curr.metrics.netIncome_YoY_growth_pct =
        qoqVal (buildRow company symbol freq_label (resolve_all inc bal cf) dt).metrics.netIncome
          (buildRow company symbol freq_label
            (resolve_all inc bal cf) ⟨dt.y - 1, dt.m, dt.d⟩).metrics.netIncome := by
      rw [hg, hnY, matchQoQ_none]
    obtain ⟨j0, hj0⟩ := List.mem_iff_getElem?.mp hmem
    have hrowsj0 : (build_rows_from_dfs company symbol inc bal cf freq_label)[j0]? =
        some (growthAt
          ((aligned_periods inc bal cf).map
            (buildRow company symbol freq_label (resolve_all inc bal cf)))
          j0 (buildRow company symbol freq_label (resolve_all inc bal cf) ⟨dt.y - 1, dt.m, dt.d⟩)) := by
      rw [build_rows_getElem, hj0]
      rfl
    have hprevTRj0 : (growthAt
        ((aligned_periods inc bal cf).map
          (buildRow company symbol freq_label (resolve_all inc bal cf)))
        j0 (buildRow company symbol freq_label
          (resolve_all inc bal cf) ⟨dt.y - 1, dt.m, dt.d⟩)).metrics.totalRevenue =
        (buildRow company symbol freq_label
          (resolve_all inc bal cf) ⟨dt.y - 1, dt.m, dt.d⟩).metrics.totalRevenue :=
      (growthAt_preserves _ j0 _).2.1
    have hprevNIj0 : (growthAt
        ((aligned_periods inc bal cf).map
          (buildRow company symbol freq_label (resolve_all inc bal cf)))
        j0 (buildRow company symbol freq_label
          (resolve_all inc bal cf) ⟨dt.y - 1, dt.m, dt.d⟩)).metrics.netIncome =
        (buildRow company symbol freq_label
          (resolve_all inc bal cf) ⟨dt.y - 1, dt.m, dt.d⟩).metrics.netIncome :=
      (growthAt_preserves _ j0 _).2.2.1
    refine ⟨?_, ?_, ?_, ?_, ?_⟩
    · rw [htQ]
      constructor
      · intro h
        obtain ⟨c, p, hc, hp, hpne⟩ := qoqVal_isSome_iff.mp h
        exact ⟨j0, _, c, p, hj0, hrowsj0, by rw [hcurrTR]; exact hc,
          by rw [hprevTRj0]; exact hp, hpne⟩
      · rintro ⟨j, prev, cv, pv, hj, hrowj, hcv, hpv, hpne⟩
        have hrj : (build_rows_from_dfs company symbol inc bal cf freq_label)[j]? =
            some (growthAt
              ((aligned_periods inc bal cf).map
                (buildRow company symbol freq_label (resolve_all inc bal cf)))
              j (buildRow company symbol freq_label
                (resolve_all inc bal cf) ⟨dt.y - 1, dt.m, dt.d⟩)) := by
          rw [build_rows_getElem, hj]
          rfl
        rw [hrj] at hrowj
        injection hrowj with hrowj
        rw [← hrowj, (growthAt_preserves _ j _).2.1] at hpv
        rw [hcurrTR] at hcv
        exact qoqVal_isSome_iff.mpr ⟨cv, pv, hcv, hpv, hpne⟩
    · intro j prev cv pv hj hrowj hcv hpv hpne
      have hrj : (build_rows_from_dfs company symbol inc bal cf freq_label)[j]? =
          some (growthAt
            ((aligned_periods inc bal cf).map
              (buildRow company symbol freq_label (resolve_all inc bal cf)))
            j (buildRow company symbol freq_label
              (resolve_all inc bal cf) ⟨dt.y - 1, dt.m, dt.d⟩)) := by
        rw [build_rows_getElem, hj]
        rfl
      rw [hrj] at hrowj
      injection hrowj with hrowj
      rw [← hrowj, (growthAt_preserves _ j _).2.1] at hpv
      rw [hcurrTR] at hcv
      rw [htQ, hcv, hpv]
      exact qoqVal_eq_some hpne
    · rw [hnQ]
      constructor
      · intro h
        obtain ⟨c, p, hc, hp, hpne⟩ := qoqVal_isSome_iff.mp h
        exact ⟨j0, _, c, p, hj0, hrowsj0, by rw [hcurrNI]; exact hc,
          by rw [hprevNIj0]; exact hp, hpne⟩
      · rintro ⟨j, prev, cv, pv, hj, hrowj, hcv, hpv, hpne⟩
        have hrj : (build_rows_from_dfs company symbol inc bal cf freq_label)[j]? =
            some (growthAt
              ((aligned_periods inc bal cf).map
                (buildRow company symbol freq_label (resolve_all inc bal cf)))
              j (buildRow company symbol freq_label
                (resolve_all inc bal cf) ⟨dt.y - 1, dt.m, dt.d⟩)) := by
          rw [build_rows_getElem, hj]
          rfl
        rw [hrj] at hrowj
        injection hrowj with hrowj
        rw [← hrowj, (growthAt_preserves _ j _).2.2.1] at hpv
        rw [hcurrNI] at hcv
        exact qoqVal_isSome_iff.mpr ⟨cv, pv, hcv, hpv, hpne⟩
    · intro j prev cv pv hj hrowj hcv hpv hpne
      have hrj : (build_rows_from_dfs company symbol inc bal cf freq_label)[j]? =
          some (growthAt
            ((aligned_periods inc bal cf).map
              (buildRow company symbol freq_label (resolve_all inc bal cf)))
            j (buildRow company symbol freq_label
              (resolve_all inc bal cf) ⟨dt.y - 1, dt.m, dt.d⟩)) := by
        rw [build_rows_getElem, hj]
        rfl
      rw [hrj] at hrowj
      injection hrowj with hrowj
      rw [← hrowj, (growthAt_preserves _ j _).2.2.1] at hpv
      rw [hcurrNI] at hcv
      rw [hnQ, hcv, hpv]
      exact qoqVal_eq_some hpne
    · intro rows2 k r hk
      exact growthAt_yoy_of_keyNone rows2 k r hk
  · rw [if_neg hmem] at hget
    obtain ⟨htY, hnY⟩ := growthAt_yoy_of_notFound
      ((aligned_periods inc bal cf).map
        (buildRow company symbol freq_label (resolve_all inc bal cf)))
      i (buildRow company symbol freq_label (resolve_all inc bal cf) dt) hkey hget
    have ht : curr.metrics.totalRevenue_YoY_growth_pct = Option.none := by
      rw [hg, htY, buildRow_metrics]
      rfl
    have hn : curr.metrics.netIncome_YoY_growth_pct = Option.none := by
      rw [hg, hnY, buildRow_metrics]
      rfl
    refine ⟨?_, ?_, ?_, ?_, ?_⟩
    · rw [ht]
      constructor
      · rintro ⟨g, hcon⟩
        cases hcon
      · rintro ⟨j, prev, cv, pv, hj, -⟩
        exact absurd (List.getElem?_mem hj) hmem
    · intro j prev cv pv hj
      exact absurd (List.getElem?_mem hj) hmem
    · rw [hn]
      constructor
      · rintro ⟨g, hcon⟩
        cases hcon
      · rintro ⟨j, prev, cv, pv, hj, -⟩
        exact absurd (List.getElem?_mem hj) hmem
    · intro j prev cv pv hj
      exact absurd (List.getElem?_mem hj) hmem
    · intro rows2 k r hk
      exact growthAt_yoy_of_keyNone rows2 k r hk

/-! ## Concrete run fixtures (for the witnesses) -/

def Wd1 : Date := ⟨2024, 6, 30⟩

def Wd0 : Date := ⟨2024, 3, 31⟩

def Winc : DataFrame :=
  [("Total Revenue", [(Wd1, some (mkRat 110 1)), (Wd0, some (mkRat 100 1))]),
   ("Gross Profit", [(Wd1, some (mkRat 40 1))]),
   ("Net Income", [(Wd1, some (mkRat 10 1)), (Wd0, some (mkRat 5 1))])]

def Wbal : DataFrame :=
  [("Total Current Assets", [(Wd1, some (mkRat 80 1))]),
   ("Total Current Liabilities", [(Wd1, some (mkRat 100 1))]),
   ("Short Term Debt", [(Wd1, some (mkRat 30 1))])]

def Wcf : DataFrame :=
  [("Operating Cash Flow", [(Wd1, some (mkRat 50 1))]),
   ("CapitalExpenditure", [(Wd1, some (mkRat 70 1))])]

def Wrows : List Row := build_rows_from_dfs "WCo" "WSym" Winc Wbal Wcf "Quarter"

def Wrow0 : Row := (Wrows[0]?).get (by decide)

def Wrow1 : Row := (Wrows[1]?).get (by decide)

theorem Wrow0_spec : Wrows[0]? = some Wrow0 := (Option.some_get _).symm

theorem Wrow1_spec : Wrows[1]? = some Wrow1 := (Option.some_get _).symm

def Yinc : DataFrame :=
  [("Total Revenue", [(⟨2024, 12, 31⟩, some (mkRat 120 1)), (⟨2023, 12, 31⟩, some (mkRat 100 1))])]

def Yrows : List Row := build_rows_from_dfs "YCo" "YSym" Yinc [] [] "Annual"

def Yrow0 : Row := (Yrows[0]?).get (by decide)

def Yrow1 : Row := (Yrows[1]?).get (by decide)

theorem Yrow0_spec : Yrows[0]? = some Yrow0 := (Option.some_get _).symm

theorem Yrow1_spec : Yrows[1]? = some Yrow1 := (Option.some_get _).symm

/-! ## Witnesses -/

theorem C1_witness :
    Wrow0.metrics.grossMargin_pct = Option.none ↔
      val (resolve_all Winc Wbal Wcf).gp_s Wd1 = Option.none ∨
      val (resolve_all Winc Wbal Wcf).rev_s Wd1 = Option.none ∨
      val (resolve_all Winc Wbal Wcf).rev_s Wd1 = some 0 :=
  (C1_derived_null_iff "WCo" "WSym" "Quarter" Winc Wbal Wcf 0 Wd1 Wrow0
    (by decide) Wrow0_spec).1

theorem C2_witness :
    Wrow0.metrics.totalDebt = Option.none ↔
      val (resolve_all Winc Wbal Wcf).sdebt_s Wd1 = Option.none ∧
      val (resolve_all Winc Wbal Wcf).ldebt_s Wd1 = Option.none :=
  (C2_totalDebt "WCo" "WSym" "Quarter" Winc Wbal Wcf 0 Wd1 Wrow0
    (by decide) Wrow0_spec).1

theorem C3_witness :
    Wrow0.metrics.freeCashFlow = some (roundTo 2 ((50 : ℚ) - 70)) :=
  (C3_freeCashFlow "WCo" "WSym" "Quarter" Winc Wbal Wcf 0 Wd1 Wrow0
    (by decide) Wrow0_spec).2 50 70 (by decide) (by decide)

theorem C4_witness :
    (aligned_periods Winc Wbal Wcf).Pairwise (fun a b => Date.key b < Date.key a) :=
  (C4_period_alignment "WCo" "WSym" "Quarter" Winc Wbal Wcf).2.2.1 (by decide)

theorem C5_witness :
    Wrow0.metrics.totalRevenue_QoQ_growth_pct =
      some (roundTo 2 (((110 : ℚ) - 100) / 100 * 100)) :=
  (C5_qoq_growth "WCo" "WSym" "Quarter" Winc Wbal Wcf 0 Wrow0 Wrow0_spec).2.1
    Wrow1 110 100 Wrow1_spec (by decide) (by decide) (by decide)

theorem C6_witness :
    Yrow0.metrics.totalRevenue_YoY_growth_pct =
      some (roundTo 2 (((120 : ℚ) - 100) / 100 * 100)) :=
  (C6_yoy_growth "YCo" "YSym" "Annual" Yinc [] [] 0 ⟨2024, 12, 31⟩ Yrow0
    (by decide) (by decide) Yrow0_spec).2.1
    1 Yrow1 120 100 (by decide) Yrow1_spec (by decide) (by decide) (by decide)

theorem C7_witness :
    "current_ratio_lt_1" ∈ Wrow0.metrics.distressFlags ↔
      ∃ v, Wrow0.metrics.currentRatio = some v ∧ v < 1 :=
  (C7_distress_flags "WCo" "WSym" "Quarter" Winc Wbal Wcf 0 Wrow0 Wrow0_spec).1

theorem C8_witness :
    _to_dec_safe (Raw.str "abc") = Option.none ∧
    _div (some (7 : ℚ)) (some 2) = some ((7 : ℚ) / 2) ∧
    ((7 : ℚ) / 2) * 2 = 7 :=
  ⟨C8_coercion_and_safe_division.2.2.2.1 "abc" (by decide),
   C8_coercion_and_safe_division.2.2.2.2.2.2.2.1 7 2 (by decide),
   C8_coercion_and_safe_division.2.2.2.2.2.2.2.2 7 2 (7 / 2)
     (C8_coercion_and_safe_division.2.2.2.2.2.2.2.1 7 2 (by decide))⟩

theorem C9_witness :
    companyRecords (fun _ => Except.error "boom") ("A", "") = [] ∧
    "[warn] No symbol for A" ∈
      (run_main (fun _ => Except.error "boom") [("A", ""), ("B", "BB")]).2 ∧
    companyRecords (fun _ => Except.error "boom") ("B", "BB") = [] ∧
    "[warn] B (BB) failed: boom" ∈
      (run_main (fun _ => Except.error "boom") [("A", ""), ("B", "BB")]).2 :=
  ⟨((C9_per_company_isolation (fun _ => Except.error "boom")
      [("A", ""), ("B", "BB")]).2.2.1 ("A", "") (by decide) rfl).1,
   ((C9_per_company_isolation (fun _ => Except.error "boom")
      [("A", ""), ("B", "BB")]).2.2.1 ("A", "") (by decide) rfl).2,
   ((C9_per_company_isolation (fun _ => Except.error "boom")
      [("A", ""), ("B", "BB")]).2.2.2 ("B", "BB") (by decide) "boom" (by decide) rfl).1,
   ((C9_per_company_isolation (fun _ => Except.error "boom")
      [("A", ""), ("B", "BB")]).2.2.2 ("B", "BB") (by decide) "boom" (by decide) rfl).2⟩

end SCM
